import Mathlib

/-
  Verification development for the software rasterizer in this repository.

  The C++ sources are shallowly embedded over exact rational arithmetic:
  `float` becomes `ℚ`, machine `int` becomes `ℤ`, `uint8_t` colour channels
  become `ℕ`, `std::vector` buffers become lists (or an explicit
  size-plus-contents pair for the large shadow map).  Calls to `sqrtf` inside
  `normalized()` are modelled by an explicit parameter `s : ℚ → ℚ` standing
  for the square-root routine, so every statement is quantified over the
  numeric behaviour of the square root where the code uses one.
-/

namespace Rast

/-- Clamp a rational into the closed interval from lo to hi, as std::clamp. -/
def clampQ (lo hi q : ℚ) : ℚ := max lo (min hi q)

/-- Truncation toward zero of a rational, the behaviour of a C++
static_cast from float to an integer type. -/
def truncZ (q : ℚ) : ℤ := if q < 0 then -(Int.floor (-q)) else Int.floor q

/-- Conversion of a rational to an unsigned 8-bit channel, the behaviour of
static_cast to uint8_t at the in-range values that occur in this program
(out-of-range casts from float are undefined behaviour in the source; this
model truncates negative values to 0). -/
def u8 (q : ℚ) : ℕ := (truncZ q).toNat

/-- Two-component vector, from src/include/vector.h (class Vec2). -/
structure Vec2 where
  x : ℚ
  y : ℚ
deriving DecidableEq

instance : Add Vec2 := ⟨fun a b => ⟨a.x + b.x, a.y + b.y⟩⟩

instance : Sub Vec2 := ⟨fun a b => ⟨a.x - b.x, a.y - b.y⟩⟩

/-- Dot product of Vec2, from src/include/vector.h. -/
def Vec2.dot (a b : Vec2) : ℚ := a.x * b.x + a.y * b.y

/-- Three-component vector, from src/include/vector.h (class Vec3). -/
structure Vec3 where
  x : ℚ
  y : ℚ
  z : ℚ
deriving DecidableEq

instance : Add Vec3 := ⟨fun a b => ⟨a.x + b.x, a.y + b.y, a.z + b.z⟩⟩

instance : Sub Vec3 := ⟨fun a b => ⟨a.x - b.x, a.y - b.y, a.z - b.z⟩⟩

instance : Neg Vec3 := ⟨fun a => ⟨-a.x, -a.y, -a.z⟩⟩

instance : HMul Vec3 ℚ Vec3 := ⟨fun a s => ⟨a.x * s, a.y * s, a.z * s⟩⟩

instance : HDiv Vec3 ℚ Vec3 := ⟨fun a s => ⟨a.x / s, a.y / s, a.z / s⟩⟩

/-- Dot product of Vec3, from src/include/vector.h. -/
def Vec3.dot (a b : Vec3) : ℚ := a.x * b.x + a.y * b.y + a.z * b.z

/-- Cross product of Vec3, from src/include/vector.h. -/
def Vec3.cross (a b : Vec3) : Vec3 :=
  ⟨a.y * b.z - a.z * b.y, a.z * b.x - a.x * b.z, a.x * b.y - a.y * b.x⟩

/-- Vec3::normalized from src/include/vector.h, with the square-root routine
passed in as the parameter s (the source compares the computed length, here
s applied to the squared length, against 1e-6 and divides by it). -/
def Vec3.normalizedW (s : ℚ → ℚ) (v : Vec3) : Vec3 :=
  let len := s (v.x * v.x + v.y * v.y + v.z * v.z)
  if len < 1 / 1000000 then v else v / len

/-- Four-component homogeneous vector, from src/include/vector.h (class Vec4). -/
structure Vec4 where
  x : ℚ
  y : ℚ
  z : ℚ
  w : ℚ
deriving DecidableEq

instance : Add Vec4 := ⟨fun a b => ⟨a.x + b.x, a.y + b.y, a.z + b.z, a.w + b.w⟩⟩

instance : Sub Vec4 := ⟨fun a b => ⟨a.x - b.x, a.y - b.y, a.z - b.z, a.w - b.w⟩⟩

instance : HMul Vec4 ℚ Vec4 := ⟨fun a s => ⟨a.x * s, a.y * s, a.z * s, a.w * s⟩⟩

instance : HDiv Vec4 ℚ Vec4 := ⟨fun a s => ⟨a.x / s, a.y / s, a.z / s, a.w / s⟩⟩

/-- RGBA colour with unsigned 8-bit channels, from src/include/vector.h
(struct Color); channels are modelled as naturals, in range below 256 for
every colour the program builds. -/
structure Color where
  r : ℕ
  g : ℕ
  b : ℕ
  a : ℕ
deriving DecidableEq

/-- Color::toUint32 from src/include/vector.h: (a shl 24) or (b shl 16) or
(g shl 8) or r. -/
def Color.toUint32 (c : Color) : ℕ :=
  (c.a <<< 24) ||| (c.b <<< 16) ||| (c.g <<< 8) ||| c.r

/-- Color::operator* from src/include/vector.h: each of r,g,b is multiplied
by the scalar, clamped to the range 0 to 255 and truncated; alpha is kept. -/
def Color.mulScalar (c : Color) (s : ℚ) : Color :=
  ⟨u8 (clampQ 0 255 ((c.r : ℚ) * s)),
   u8 (clampQ 0 255 ((c.g : ℚ) * s)),
   u8 (clampQ 0 255 ((c.b : ℚ) * s)),
   c.a⟩

/-- Color::operator+ from src/include/vector.h: channelwise integer sum
clamped to the range 0 to 255 (the sum of two channels is never negative,
so the clamp is a min with 255). -/
def Color.addC (c d : Color) : Color :=
  ⟨min (c.r + d.r) 255, min (c.g + d.g) 255, min (c.b + d.b) 255,
   min (c.a + d.a) 255⟩

/-- Row-major 4x4 matrix, from src/include/matrix.h (class Matrix4x4). -/
structure Mat4 where
  m00 : ℚ
  m01 : ℚ
  m02 : ℚ
  m03 : ℚ
  m10 : ℚ
  m11 : ℚ
  m12 : ℚ
  m13 : ℚ
  m20 : ℚ
  m21 : ℚ
  m22 : ℚ
  m23 : ℚ
  m30 : ℚ
  m31 : ℚ
  m32 : ℚ
  m33 : ℚ
deriving DecidableEq

/-- The identity matrix, the value built by the Matrix4x4 default
constructor in src/include/matrix.h. -/
def Mat4.identity : Mat4 :=
  ⟨1, 0, 0, 0, 0, 1, 0, 0, 0, 0, 1, 0, 0, 0, 0, 1⟩

/-- Matrix-vector product, Matrix4x4::operator*(Vec4) from
src/include/matrix.h. -/
def Mat4.mulVec (m : Mat4) (v : Vec4) : Vec4 :=
  ⟨m.m00 * v.x + m.m01 * v.y + m.m02 * v.z + m.m03 * v.w,
   m.m10 * v.x + m.m11 * v.y + m.m12 * v.z + m.m13 * v.w,
   m.m20 * v.x + m.m21 * v.y + m.m22 * v.z + m.m23 * v.w,
   m.m30 * v.x + m.m31 * v.y + m.m32 * v.z + m.m33 * v.w⟩

/-- Modelled from the spec: the interpolant record VertexShaderOutput of
src/include/shader.h (clip-space position, world position, world normal,
texture coordinate, colour) extended with the light-space position field
shadowPos of spec section 4.1; the shadowPos field is missing from the
shader.h variant kept under src/ but is read by src/src/rasterizer.cpp, so
it is modelled from the spec's words. -/
structure VertexShaderOutput where
  position : Vec4
  worldPos : Vec3
  normal : Vec3
  texCoord : Vec2
  color : Color
  shadowPos : Vec4
deriving DecidableEq

/-- VertexShaderOutput::interpolate from src/include/shader.h: every field
is the componentwise (1-t), t weighted sum of the endpoints, with the four
colour channels computed in 0 to 255 space and then cast back to uint8
(truncated); the shadowPos field is combined the same way, following the
spec's requirement that the record be linearly combinable in all fields. -/
def VertexShaderOutput.interpolate (v1 v2 : VertexShaderOutput) (t : ℚ) :
    VertexShaderOutput :=
  { position := v1.position * (1 - t) + v2.position * t
    worldPos := v1.worldPos * (1 - t) + v2.worldPos * t
    normal := v1.normal * (1 - t) + v2.normal * t
    texCoord := ⟨v1.texCoord.x * (1 - t) + v2.texCoord.x * t,
                 v1.texCoord.y * (1 - t) + v2.texCoord.y * t⟩
    color := ⟨u8 ((v1.color.r : ℚ) * (1 - t) + (v2.color.r : ℚ) * t),
              u8 ((v1.color.g : ℚ) * (1 - t) + (v2.color.g : ℚ) * t),
              u8 ((v1.color.b : ℚ) * (1 - t) + (v2.color.b : ℚ) * t),
              u8 ((v1.color.a : ℚ) * (1 - t) + (v2.color.a : ℚ) * t)⟩
    shadowPos := v1.shadowPos * (1 - t) + v2.shadowPos * t }

/-- Clip-space vertex paired with its interpolant record, struct
VertexWithAttributes from src/src/rasterizer.cpp. -/
structure VertexWithAttributes where
  position : Vec4
  attributes : VertexShaderOutput
deriving DecidableEq

/-- isInsidePlane from src/src/rasterizer.cpp lines 174-187: plane 0 tests
sign times x at most w, plane 1 tests sign times y at most w, plane 2 tests
z at least minus w, plane 3 tests z at most w (ignoring sign), any other
index is outside. -/
def isInsidePlane (position : Vec4) (planeIndex sign : ℤ) : Bool :=
  if planeIndex = 0 then decide ((sign : ℚ) * position.x ≤ position.w)
  else if planeIndex = 1 then decide ((sign : ℚ) * position.y ≤ position.w)
  else if planeIndex = 2 then decide (position.z ≥ -position.w)
  else if planeIndex = 3 then decide (position.z ≤ position.w)
  else false

/-- intersectionParameter from src/src/rasterizer.cpp lines 189-208,
including the final clamp of t into the range 0 to 1.  Note the z-plane
cases (2 and 3) are translated exactly as written in the source, including
the sign of the (z1 - z2) term in their denominators.  Division by zero is
total (equal to 0) in this rational model, while the source would produce
an infinity that the clamp sends to 0 or 1; no statement below depends on a
zero denominator. -/
def intersectionParameter (v1 v2 : Vec4) (planeIndex sign : ℤ) : ℚ :=
  let s : ℚ := (sign : ℤ)
  let t : ℚ :=
    if planeIndex = 0 then (s * v1.w - v1.x) / ((v2.x - v1.x) - s * (v2.w - v1.w))
    else if planeIndex = 1 then (s * v1.w - v1.y) / ((v2.y - v1.y) - s * (v2.w - v1.w))
    else if planeIndex = 2 then (v1.z + v1.w) / ((v1.w - v2.w) - (v1.z - v2.z))
    else if planeIndex = 3 then (v1.w - v1.z) / ((v1.z - v2.z) + (v1.w - v2.w))
    else 0
  max 0 (min 1 t)

/-- One iteration of the edge loop of clipAgainstPlaneWithAttributes
(src/src/rasterizer.cpp lines 222-248): both endpoints inside emits the
current vertex, outside-to-inside emits the computed intersection vertex
then the current vertex, inside-to-outside emits only the intersection
vertex, both outside emits nothing; the intersection vertex interpolates
position and the full attribute record at the clamped parameter t. -/
def clipEdge (planeIndex sign : ℤ) (previous current : VertexWithAttributes) :
    List VertexWithAttributes :=
  let previousInside := isInsidePlane previous.position planeIndex sign
  let currentInside := isInsidePlane current.position planeIndex sign
  if previousInside && currentInside then
    [current]
  else if !previousInside && currentInside then
    let t := intersectionParameter previous.position current.position planeIndex sign
    let inter : VertexWithAttributes :=
      { position := previous.position + (current.position - previous.position) * t
        attributes := VertexShaderOutput.interpolate previous.attributes current.attributes t }
    [inter, current]
  else if previousInside && !currentInside then
    let t := intersectionParameter previous.position current.position planeIndex sign
    let inter : VertexWithAttributes :=
      { position := previous.position + (current.position - previous.position) * t
        attributes := VertexShaderOutput.interpolate previous.attributes current.attributes t }
    [inter]
  else []

/-- clipAgainstPlaneWithAttributes from src/src/rasterizer.cpp lines
211-251: an empty polygon stays empty; otherwise the edge loop walks the
vertices with the running previous vertex seeded by the last vertex,
concatenating what each edge emits. -/
def clipAgainstPlaneWithAttributes (vertices : List VertexWithAttributes)
    (planeIndex sign : ℤ) : List VertexWithAttributes :=
  match vertices.getLast? with
  | none => []
  | some back =>
    (vertices.foldl
      (fun acc current => (acc.1 ++ clipEdge planeIndex sign acc.2 current, current))
      (([] : List VertexWithAttributes), back)).1

/-- clipTriangleWithAttributes from src/src/rasterizer.cpp lines 253-268:
the triangle is clipped against the planes (0,+1), (0,-1), (1,+1), (1,-1),
(2,+1), (3,0) in that order. -/
def clipTriangleWithAttributes (v1 v2 v3 : VertexWithAttributes) :
    List VertexWithAttributes :=
  let vs0 := [v1, v2, v3]
  let vs1 := clipAgainstPlaneWithAttributes vs0 0 1
  let vs2 := clipAgainstPlaneWithAttributes vs1 0 (-1)
  let vs3 := clipAgainstPlaneWithAttributes vs2 1 1
  let vs4 := clipAgainstPlaneWithAttributes vs3 1 (-1)
  let vs5 := clipAgainstPlaneWithAttributes vs4 2 1
  clipAgainstPlaneWithAttributes vs5 3 0

/-- Modelled from the spec: the FragmentShaderInput record of
src/include/shader.h (world position, normal, texture coordinate, colour)
extended with the light-space position and the shadow factor; the two extra
fields are missing from the shader.h variant kept under src/ but are filled
in by src/src/rasterizer.cpp line 429, so they are modelled from the spec
(sections 4.3 and 4.7). -/
structure FragmentShaderInput where
  worldPos : Vec3
  normal : Vec3
  texCoord : Vec2
  color : Color
  shadowPos : Vec4
  shadowFactor : ℚ

/-- Input record of the vertex stage, struct VertexShaderInput from
src/include/shader.h (the mesh-side Vertex of src/include/mesh.h carries
the same four fields). -/
structure VertexShaderInput where
  position : Vec3
  normal : Vec3
  texCoord : Vec2
  color : Color

/-- The shadow map side length, SHADOW_MAP_SIZE = 2048 from
src/include/rasterizer.h. -/
def SHADOW_MAP_SIZE : ℤ := 2048

/-- The mutable state of class Rasterizer that the core pipeline touches:
framebuffer dimensions, colour and depth buffers, the wireframe and shadow
flags, and the shadow-map state (the shadow map itself is modelled as its
length paired with a contents function, standing for the std::vector of
2048 * 2048 floats). -/
structure RState where
  width : ℤ
  height : ℤ
  colorBuffer : List ℕ
  depthBuffer : List ℚ
  shadowsEnabled : Bool
  wireframeMode : Bool
  shadowMatrix : Mat4
  shadowMapLen : ℕ
  shadowMap : ℕ → ℚ

/-- The Rasterizer constructor, src/src/rasterizer.cpp lines 16-24: colour
buffer resized to width times height filled with 0, depth buffer likewise
filled with 1.0, shadow map sized SHADOW_MAP_SIZE squared filled with 1.0,
shadows enabled, wireframe off; the shadow matrix member is
default-constructed, which for Matrix4x4 is the identity. -/
def mkRasterizer (width height : ℤ) : RState :=
  { width := width
    height := height
    colorBuffer := List.replicate (width * height).toNat 0
    depthBuffer := List.replicate (width * height).toNat 1
    shadowsEnabled := true
    wireframeMode := false
    shadowMatrix := Mat4.identity
    shadowMapLen := (SHADOW_MAP_SIZE * SHADOW_MAP_SIZE).toNat
    shadowMap := fun _ => 1 }

/-- Rasterizer::clear, src/src/rasterizer.cpp lines 73-78: every colour
entry becomes the 32-bit packing of the given colour and every depth entry
becomes 1.0 (std::fill over the existing storage, so the sizes are kept). -/
def clear (st : RState) (color : Color) : RState :=
  { st with
    colorBuffer := st.colorBuffer.map fun _ => color.toUint32
    depthBuffer := st.depthBuffer.map fun _ => 1 }

/-- Rasterizer::drawPoint, src/src/rasterizer.cpp lines 80-86: outside the
framebuffer nothing happens; inside, the packed colour is stored at row y,
column x. -/
def drawPoint (st : RState) (x y : ℤ) (color : Color) : RState :=
  if x < 0 ∨ x ≥ st.width ∨ y < 0 ∨ y ≥ st.height then st
  else
    { st with
      colorBuffer := st.colorBuffer.set (y * st.width + x).toNat color.toUint32 }

/-- The Bresenham loop of Rasterizer::drawLine, src/src/rasterizer.cpp
lines 95-111, with an explicit fuel so the recursion is structural: each
iteration plots the current point, stops on reaching the end point, and
otherwise advances x and/or y by the precomputed steps while updating the
error term.  The source loop makes at least one axis step per iteration,
so the fuel chosen by drawLine suffices; the safety statements below are
quantified over every fuel. -/
def drawLineLoop (color : Color) (x2 y2 dx dy sx sy : ℤ) :
    ℕ → ℤ → ℤ → ℤ → RState → RState
  | 0, _, _, _, st => st
  | fuel + 1, x1, y1, err, st =>
    let st1 := drawPoint st x1 y1 color
    if x1 = x2 ∧ y1 = y2 then st1
    else
      let e2 := 2 * err
      let errX := if e2 > -dy then err - dy else err
      let xN := if e2 > -dy then x1 + sx else x1
      let errY := if e2 < dx then errX + dx else errX
      let yN := if e2 < dx then y1 + sy else y1
      drawLineLoop color x2 y2 dx dy sx sy fuel xN yN errY st1

/-- Rasterizer::drawLine, src/src/rasterizer.cpp lines 88-112: set up the
Bresenham deltas, steps and error term and run the loop. -/
def drawLine (st : RState) (x1 y1 x2 y2 : ℤ) (color : Color) : RState :=
  let dx := |x2 - x1|
  let dy := |y2 - y1|
  let sx : ℤ := if x1 < x2 then 1 else -1
  let sy : ℤ := if y1 < y2 then 1 else -1
  drawLineLoop color x2 y2 dx dy sx sy (dx + dy + 1).toNat x1 y1 (dx - dy) st

/-- Rasterizer::viewportTransform, src/src/rasterizer.cpp lines 695-704:
map NDC x,y to pixel coordinates (y flipped), map z into 0..1 and clamp it
into the band 0.0001 to 0.9999, keep w. -/
def viewportTransform (st : RState) (clipCoords : Vec4) : Vec4 :=
  let x := (clipCoords.x + 1) * (1 / 2) * (st.width : ℚ)
  let y := (1 - clipCoords.y) * (1 / 2) * (st.height : ℚ)
  let z := (clipCoords.z + 1) * (1 / 2)
  ⟨x, y, max (1 / 10000) (min (9999 / 10000) z), clipCoords.w⟩

/-- The 7 by 7 offset grid of the PCF loop in Rasterizer::getShadowFactor,
src/src/rasterizer.cpp lines 510-511 (pcfSize = 3), as (y offset, x offset)
pairs in loop order. -/
def pcfOffsets : List (ℤ × ℤ) :=
  (List.range 7).flatMap fun dy =>
    (List.range 7).map fun dx => ((dy : ℤ) - 3, (dx : ℤ) - 3)

/-- The light-clip position of a world point, src/src/rasterizer.cpp line
476: the shadow matrix applied to the homogeneous world position. -/
def shadowClipPos (st : RState) (worldPos : Vec3) : Vec4 :=
  st.shadowMatrix.mulVec ⟨worldPos.x, worldPos.y, worldPos.z, 1⟩

/-- The shadow-map texture coordinates and depth of a world point,
src/src/rasterizer.cpp lines 482-486: perspective divide, then x remapped
to 0..1, y remapped with a flip, z remapped to 0..1.  Returned as
(shadowX, shadowY, shadowDepth). -/
def shadowUV (st : RState) (worldPos : Vec3) : ℚ × ℚ × ℚ :=
  let sp0 := shadowClipPos st worldPos
  let sp := sp0 / sp0.w
  ((sp.x + 1) * (1 / 2), ((1 - sp.y) * (1 / 2), (sp.z + 1) * (1 / 2)))

/-- The integer texel of a world point in the shadow map,
src/src/rasterizer.cpp lines 492-493: truncation of the 0..1 coordinates
scaled by SHADOW_MAP_SIZE - 1.  Returned as (mapX, mapY). -/
def shadowMapXY (st : RState) (worldPos : Vec3) : ℤ × ℤ :=
  let uv := shadowUV st worldPos
  (truncZ (uv.1 * ((SHADOW_MAP_SIZE : ℚ) - 1)),
   truncZ (uv.2.1 * ((SHADOW_MAP_SIZE : ℚ) - 1)))

/-- The early-return tests of Rasterizer::getShadowFactor,
src/src/rasterizer.cpp lines 472-498, in source order: shadows disabled,
light-clip w nearly zero, texture coordinate or depth outside the light's
region, or texel index out of range of the shadow-map vector. -/
def shadowEarlyOut (st : RState) (worldPos : Vec3) : Bool :=
  if st.shadowsEnabled = false then true
  else if |(shadowClipPos st worldPos).w| < 1 / 10000 then true
  else
    let uv := shadowUV st worldPos
    if uv.1 < 0 ∨ uv.1 > 1 ∨ uv.2.1 < 0 ∨ uv.2.1 > 1 ∨ uv.2.2 > 1 then true
    else
      let xy := shadowMapXY st worldPos
      let shadowIndex := xy.2 * SHADOW_MAP_SIZE + xy.1
      decide (shadowIndex < 0 ∨ shadowIndex ≥ (st.shadowMapLen : ℤ))

/-- The PCF counting loop of Rasterizer::getShadowFactor,
src/src/rasterizer.cpp lines 506-527: over the 7 by 7 neighbourhood of the
centre texel, count (occluded samples, in-bounds samples), where an
in-bounds sample is occluded iff shadowDepth - 0.01 exceeds the stored
depth. -/
def shadowCountsOf (st : RState) (worldPos : Vec3) : ℕ × ℕ :=
  let uv := shadowUV st worldPos
  let xy := shadowMapXY st worldPos
  pcfOffsets.foldl
    (fun (acc : ℕ × ℕ) (off : ℤ × ℤ) =>
      let sampleX := xy.1 + off.2
      let sampleY := xy.2 + off.1
      if 0 ≤ sampleX ∧ sampleX < SHADOW_MAP_SIZE ∧
          0 ≤ sampleY ∧ sampleY < SHADOW_MAP_SIZE then
        let sampleDepth := st.shadowMap (sampleY * SHADOW_MAP_SIZE + sampleX).toNat
        (if uv.2.2 - 1 / 100 > sampleDepth then acc.1 + 1 else acc.1, acc.2 + 1)
      else acc)
    (0, 0)

/-- Rasterizer::getShadowFactor, src/src/rasterizer.cpp lines 471-538: 1.0
on any early return; otherwise 1 minus 0.85 times the occluded fraction of
the PCF samples (1.0 if there were none), further clamped down to 0.5 when
at least one sample is occluded and the factor still exceeds 0.5. -/
def getShadowFactor (st : RState) (worldPos : Vec3) : ℚ :=
  if shadowEarlyOut st worldPos then 1
  else
    let counts := shadowCountsOf st worldPos
    let shadowFactor : ℚ :=
      if 0 < counts.2 then 1 - ((counts.1 : ℚ) / (counts.2 : ℚ)) * (85 / 100)
      else 1
    if 0 < counts.1 ∧ shadowFactor > 1 / 2 then 1 / 2 else shadowFactor

/-- The screen-space barycentric denominator of the pixel loop,
src/src/rasterizer.cpp lines 363-377 (the edge-vector dot products d00,
d01, d11 and their determinant). -/
def baryDenomAt (s1 s2 s3 : Vec4) : ℚ :=
  let v0 : Vec2 := ⟨s2.x, s2.y⟩ - ⟨s1.x, s1.y⟩
  let v1 : Vec2 := ⟨s3.x, s3.y⟩ - ⟨s1.x, s1.y⟩
  v0.dot v0 * (v1.dot v1) - v0.dot v1 * (v0.dot v1)

/-- The screen-space barycentric weights (alpha, beta, gamma) of a pixel
centre against a screen triangle, src/src/rasterizer.cpp lines 361-384. -/
def baryAt (s1 s2 s3 : Vec4) (x y : ℤ) : ℚ × ℚ × ℚ :=
  let p : Vec2 := ⟨(x : ℚ) + 1 / 2, (y : ℚ) + 1 / 2⟩
  let v0 : Vec2 := ⟨s2.x, s2.y⟩ - ⟨s1.x, s1.y⟩
  let v1 : Vec2 := ⟨s3.x, s3.y⟩ - ⟨s1.x, s1.y⟩
  let v2 : Vec2 := p - ⟨s1.x, s1.y⟩
  let d00 := v0.dot v0
  let d01 := v0.dot v1
  let d11 := v1.dot v1
  let d20 := v2.dot v0
  let d21 := v2.dot v1
  let denom := d00 * d11 - d01 * d01
  let beta := (d11 * d20 - d01 * d21) / denom
  let gamma := (d00 * d21 - d01 * d20) / denom
  (1 - beta - gamma, (beta, gamma))

/-- Pixel coverage, src/src/rasterizer.cpp lines 378-387: the barycentric
denominator is not within 1e-6 of zero, the three weights are nonnegative,
and their sum is at most 1 + 1e-5. -/
def pixelCovered (s1 s2 s3 : Vec4) (x y : ℤ) : Bool :=
  let b := baryAt s1 s2 s3 x y
  decide (1 / 1000000 ≤ |baryDenomAt s1 s2 s3|) &&
    (decide (0 ≤ b.1) && decide (0 ≤ b.2.1) && decide (0 ≤ b.2.2) &&
      decide (b.1 + b.2.1 + b.2.2 ≤ 1 + 1 / 100000))

/-- The tested depth of a pixel, src/src/rasterizer.cpp lines 389-403: the
perspective-correct interpolation of the three NDC depths minus the
slope-scaled bias 1e-5 times (1 - facingDot), where facingDot is the dot
product of the triangle's unit face normal with the unit view direction. -/
def zTestAt (cv1 cv2 cv3 : VertexWithAttributes) (s1 s2 s3 : Vec4)
    (facingDot : ℚ) (x y : ℤ) : ℚ :=
  let b := baryAt s1 s2 s3 x y
  let w1 := 1 / cv1.position.w
  let w2 := 1 / cv2.position.w
  let w3 := 1 / cv3.position.w
  let wInterp := b.1 * w1 + b.2.1 * w2 + b.2.2 * w3
  let z1 := (cv1.position / cv1.position.w).z
  let z2 := (cv2.position / cv2.position.w).z
  let z3 := (cv3.position / cv3.position.w).z
  let zInterp := (b.1 * z1 * w1 + b.2.1 * z2 * w2 + b.2.2 * z3 * w3) / wInterp
  zInterp - 1 / 100000 * (1 - facingDot)

/-- The interpolated fragment-shader input of a covered pixel,
src/src/rasterizer.cpp lines 406-429: perspective-correct weights, then
world position, renormalized normal, texture coordinate, truncated colour,
the shadow factor of the interpolated world position, and the interpolated
light-space position. -/
def fragInputAt (sqrtS : ℚ → ℚ) (st : RState)
    (cv1 cv2 cv3 : VertexWithAttributes) (s1 s2 s3 : Vec4) (x y : ℤ) :
    FragmentShaderInput :=
  let b := baryAt s1 s2 s3 x y
  let w1 := 1 / cv1.position.w
  let w2 := 1 / cv2.position.w
  let w3 := 1 / cv3.position.w
  let wInterp := b.1 * w1 + b.2.1 * w2 + b.2.2 * w3
  let aP := w1 * b.1 / wInterp
  let bP := w2 * b.2.1 / wInterp
  let cP := w3 * b.2.2 / wInterp
  let o1 := cv1.attributes
  let o2 := cv2.attributes
  let o3 := cv3.attributes
  let worldPos := o1.worldPos * aP + o2.worldPos * bP + o3.worldPos * cP
  { worldPos := worldPos
    normal := (o1.normal * aP + o2.normal * bP + o3.normal * cP).normalizedW sqrtS
    texCoord := ⟨o1.texCoord.x * aP + o2.texCoord.x * bP + o3.texCoord.x * cP,
                 o1.texCoord.y * aP + o2.texCoord.y * bP + o3.texCoord.y * cP⟩
    color := ⟨u8 ((o1.color.r : ℚ) * aP + (o2.color.r : ℚ) * bP + (o3.color.r : ℚ) * cP),
              u8 ((o1.color.g : ℚ) * aP + (o2.color.g : ℚ) * bP + (o3.color.g : ℚ) * cP),
              u8 ((o1.color.b : ℚ) * aP + (o2.color.b : ℚ) * bP + (o3.color.b : ℚ) * cP),
              u8 ((o1.color.a : ℚ) * aP + (o2.color.a : ℚ) * bP + (o3.color.a : ℚ) * cP)⟩
    shadowPos := o1.shadowPos * aP + o2.shadowPos * bP + o3.shadowPos * cP
    shadowFactor := getShadowFactor st worldPos }

/-- The body of the per-pixel loop of Rasterizer::renderMesh,
src/src/rasterizer.cpp lines 360-437: skip the pixel unless it is covered;
on a covered pixel run the depth test against the stored depth at the
pixel's index and, when it passes, store the fragment shader's packed
colour and the tested depth. -/
def processPixel (sqrtS : ℚ → ℚ) (fragShader : FragmentShaderInput → Color)
    (cv1 cv2 cv3 : VertexWithAttributes) (s1 s2 s3 : Vec4) (facingDot : ℚ)
    (x y : ℤ) (st : RState) : RState :=
  if pixelCovered s1 s2 s3 x y then
    let index := (y * st.width + x).toNat
    let depthValue := zTestAt cv1 cv2 cv3 s1 s2 s3 facingDot x y
    if depthValue < (st.depthBuffer.get? index).getD 1 then
      let pixelColor := fragShader (fragInputAt sqrtS st cv1 cv2 cv3 s1 s2 s3 x y)
      { st with
        colorBuffer := st.colorBuffer.set index pixelColor.toUint32
        depthBuffer := st.depthBuffer.set index depthValue }
    else st
  else st

/-- The world-space view direction used by backface culling,
src/src/rasterizer.cpp lines 295-297: the normalized direction from the
triangle centroid to the camera position. -/
def viewDirOf (sqrtS : ℚ → ℚ) (o1 o2 o3 : VertexShaderOutput)
    (cameraPos : Vec3) : Vec3 :=
  let triangleCenter := (o1.worldPos + o2.worldPos + o3.worldPos) / (3 : ℚ)
  (cameraPos - triangleCenter).normalizedW sqrtS

/-- The world-space face normal used by backface culling,
src/src/rasterizer.cpp lines 299-301: the normalized cross product of the
two edge vectors out of the first vertex. -/
def faceNormalOf (sqrtS : ℚ → ℚ) (o1 o2 o3 : VertexShaderOutput) : Vec3 :=
  ((o2.worldPos - o1.worldPos).cross (o3.worldPos - o1.worldPos)).normalizedW sqrtS

/-- The averaged vertex normal used by backface culling,
src/src/rasterizer.cpp lines 291-303: each vertex normal is normalized,
the three are summed, and the sum is normalized. -/
def avgVertexNormalOf (sqrtS : ℚ → ℚ) (o1 o2 o3 : VertexShaderOutput) : Vec3 :=
  (o1.normal.normalizedW sqrtS + o2.normal.normalizedW sqrtS +
    o3.normal.normalizedW sqrtS).normalizedW sqrtS

/-- The culling score, src/src/rasterizer.cpp lines 304-307: the larger of
the averaged-vertex-normal dot view and face-normal dot view products. -/
def bestDotOf (sqrtS : ℚ → ℚ) (o1 o2 o3 : VertexShaderOutput)
    (cameraPos : Vec3) : ℚ :=
  max ((avgVertexNormalOf sqrtS o1 o2 o3).dot (viewDirOf sqrtS o1 o2 o3 cameraPos))
    ((faceNormalOf sqrtS o1 o2 o3).dot (viewDirOf sqrtS o1 o2 o3 cameraPos))

/-- The backface-culling decision, src/src/rasterizer.cpp line 309: cull
iff wireframe mode is off and the culling score is below -0.7. -/
def shouldCull (sqrtS : ℚ → ℚ) (wireframeMode : Bool)
    (o1 o2 o3 : VertexShaderOutput) (cameraPos : Vec3) : Bool :=
  !wireframeMode && decide (bestDotOf sqrtS o1 o2 o3 cameraPos < -(7 / 10))

/-- The list of integers from lo to hi inclusive, the iteration domain of
the clamped bounding-box loops. -/
def intRange (lo hi : ℤ) : List ℤ :=
  (List.range (hi + 1 - lo).toNat).map fun k => lo + (k : ℤ)

/-- The pixel double loop of one fan sub-triangle,
src/src/rasterizer.cpp lines 354-439: the bounding box of the three screen
points, truncated to integers and clamped to the framebuffer, scanned row
by row then column by column through processPixel. -/
def subTrianglePixels (sqrtS : ℚ → ℚ) (fragShader : FragmentShaderInput → Color)
    (cv1 cv2 cv3 : VertexWithAttributes) (s1 s2 s3 : Vec4) (facingDot : ℚ)
    (st : RState) : RState :=
  let minX := max 0 (min (min (truncZ s1.x) (truncZ s2.x)) (truncZ s3.x))
  let maxX := min (st.width - 1) (max (max (truncZ s1.x) (truncZ s2.x)) (truncZ s3.x))
  let minY := max 0 (min (min (truncZ s1.y) (truncZ s2.y)) (truncZ s3.y))
  let maxY := min (st.height - 1) (max (max (truncZ s1.y) (truncZ s2.y)) (truncZ s3.y))
  (intRange minY maxY).foldl
    (fun stY yy =>
      (intRange minX maxX).foldl
        (fun stX xx => processPixel sqrtS fragShader cv1 cv2 cv3 s1 s2 s3 facingDot xx yy stX)
        stY)
    st

/-- The wireframe overlay of one fan sub-triangle,
src/src/rasterizer.cpp lines 441-460: in wireframe mode the three screen
edges are drawn with Bresenham, white for front-facing and red for
back-facing triangles. -/
def wireframePass (st : RState) (facingDot : ℚ) (s1 s2 s3 : Vec4) : RState :=
  if st.wireframeMode then
    let wireColor : Color := if facingDot > 0 then ⟨255, 255, 255, 255⟩ else ⟨255, 0, 0, 255⟩
    let stA := drawLine st (truncZ s1.x) (truncZ s1.y) (truncZ s2.x) (truncZ s2.y) wireColor
    let stB := drawLine stA (truncZ s2.x) (truncZ s2.y) (truncZ s3.x) (truncZ s3.y) wireColor
    drawLine stB (truncZ s3.x) (truncZ s3.y) (truncZ s1.x) (truncZ s1.y) wireColor
  else st

/-- Placeholder vertex used only as the default of list lookups whose
indices are in range whenever the caller reaches them. -/
def defaultVWA : VertexWithAttributes :=
  ⟨⟨0, 0, 0, 1⟩, ⟨⟨0, 0, 0, 1⟩, ⟨0, 0, 0⟩, ⟨0, 0, 0⟩, ⟨0, 0⟩, ⟨0, 0, 0, 255⟩, ⟨0, 0, 0, 1⟩⟩⟩

/-- The per-triangle body of Rasterizer::renderMesh,
src/src/rasterizer.cpp lines 291-461, after the vertex stage: backface
cull (skipping the triangle entirely when culled), clip against the six
planes (skipping when fewer than three vertices remain), compute the
screen positions of the clipped polygon, then fan-triangulate it and run
the pixel loop and the wireframe overlay on each sub-triangle. -/
def renderTriangle (sqrtS : ℚ → ℚ) (fragShader : FragmentShaderInput → Color)
    (cameraPos : Vec3) (o1 o2 o3 : VertexShaderOutput) (st : RState) : RState :=
  if shouldCull sqrtS st.wireframeMode o1 o2 o3 cameraPos then st
  else
    let clipped := clipTriangleWithAttributes ⟨o1.position, o1⟩ ⟨o2.position, o2⟩ ⟨o3.position, o3⟩
    if clipped.length < 3 then st
    else
      let screens := clipped.map fun v => viewportTransform st (v.position / v.position.w)
      let facingDot := (faceNormalOf sqrtS o1 o2 o3).dot (viewDirOf sqrtS o1 o2 o3 cameraPos)
      (List.range (clipped.length - 2)).foldl
        (fun stI i =>
          let cv1 := clipped.getD 0 defaultVWA
          let cv2 := clipped.getD (i + 1) defaultVWA
          let cv3 := clipped.getD (i + 2) defaultVWA
          let s1 := screens.getD 0 ⟨0, 0, 0, 1⟩
          let s2 := screens.getD (i + 1) ⟨0, 0, 0, 1⟩
          let s3 := screens.getD (i + 2) ⟨0, 0, 0, 1⟩
          wireframePass
            (subTrianglePixels sqrtS fragShader cv1 cv2 cv3 s1 s2 s3 facingDot stI)
            facingDot s1 s2 s3)
        st

/-- The vertex stage, Shader::vertexShader from src/src/shader.cpp lines
12-49 (ignoring its debug printing): world position by the model matrix,
clip position by projection times view times world, normal transformed by
the model matrix and normalized, texture coordinate and colour passed
through.  The shadowPos field is modelled from the spec (section 4.1): the
light matrix applied to the homogeneous world position. -/
def vertexShader (sqrtS : ℚ → ℚ) (model view proj lightMat : Mat4)
    (input : VertexShaderInput) : VertexShaderOutput :=
  let worldPos := model.mulVec ⟨input.position.x, input.position.y, input.position.z, 1⟩
  let viewPos := view.mulVec worldPos
  let tn := model.mulVec ⟨input.normal.x, input.normal.y, input.normal.z, 0⟩
  { position := proj.mulVec viewPos
    worldPos := ⟨worldPos.x, worldPos.y, worldPos.z⟩
    normal := (⟨tn.x, tn.y, tn.z⟩ : Vec3).normalizedW sqrtS
    texCoord := input.texCoord
    color := input.color
    shadowPos := lightMat.mulVec worldPos }

/-- Mesh data consumed by renderMesh, from src/include/mesh.h: a vertex
array, triangles as index triples into it (validity is a mesh invariant),
and the model matrix. -/
structure MeshData where
  vertices : List VertexShaderInput
  triangles : List (ℕ × ℕ × ℕ)
  modelMatrix : Mat4

/-- Rasterizer::renderMesh, src/src/rasterizer.cpp lines 270-464: for each
triangle of the mesh, run the vertex stage on its three vertices with the
mesh's model matrix and hand the three interpolant records to the
per-triangle pipeline. -/
def renderMesh (sqrtS : ℚ → ℚ) (view proj lightMat : Mat4)
    (fragShader : FragmentShaderInput → Color) (cameraPos : Vec3)
    (mesh : MeshData) (st : RState) : RState :=
  mesh.triangles.foldl
    (fun stT tri =>
      let dflt : VertexShaderInput := ⟨⟨0, 0, 0⟩, ⟨0, 0, 0⟩, ⟨0, 0⟩, ⟨0, 0, 0, 255⟩⟩
      let o1 := vertexShader sqrtS mesh.modelMatrix view proj lightMat (mesh.vertices.getD tri.1 dflt)
      let o2 := vertexShader sqrtS mesh.modelMatrix view proj lightMat (mesh.vertices.getD tri.2.1 dflt)
      let o3 := vertexShader sqrtS mesh.modelMatrix view proj lightMat (mesh.vertices.getD tri.2.2 dflt)
      renderTriangle sqrtS fragShader cameraPos o1 o2 o3 stT)
    st

/-- FlatShader::fragmentShader from src/src/shader.cpp lines 58-63: when
the shader's own colour is pure white the interpolated vertex colour is
returned, otherwise the shader's colour. -/
def flatFragmentShader (mColor : Color) (input : FragmentShaderInput) : Color :=
  if mColor.r = 255 ∧ mColor.g = 255 ∧ mColor.b = 255 then input.color else mColor

/-- Modelled from the spec: the light-accumulation loop shared by the
shadow-aware PhongBlinn and Toon fragment shaders.  The shader variant
that consumes the shadow factor is part of this repository but missing
from src/ (the src/ copies of shader.h and shader.cpp predate shadows:
their FragmentShaderInput has no shadowFactor field, while
src/src/rasterizer.cpp line 429 builds the six-field input).  Following
spec section 4.7, each light contributes an unshadowed diffuse colour and
an unshadowed specular colour (abstracted here as a given list of pairs,
since their numeric computation lives in the missing variant), and the
loop multiplies the diffuse and the specular by the shadow factor before
adding them, with saturating colour addition, onto the running result
seeded by the ambient colour. -/
def shadowedLightLoop (terms : List (Color × Color)) (ambientColor : Color)
    (sf : ℚ) : Color :=
  terms.foldl
    (fun result ds => (result.addC (ds.1.mulScalar sf)).addC (ds.2.mulScalar sf))
    ambientColor

/-- Modelled from the spec: the shadow-aware PhongBlinn fragment shader
(spec section 4.7), absent from src/src/shader.cpp which predates shadows.
The starting result is the base colour scaled by the ambient coefficient
(never multiplied by the shadow factor), and every light's diffuse and
specular terms are multiplied by the fragment's shadow factor before
accumulation. -/
def phongShadowedFragment (kAmbient : ℚ) (terms : List (Color × Color))
    (input : FragmentShaderInput) : Color :=
  shadowedLightLoop terms (input.color.mulScalar kAmbient) input.shadowFactor

/-- Modelled from the spec: the Toon shadow-factor quantization of spec
section 4.7 (0.5 when the factor is below 0.75, else 1), absent from
src/src/shader.cpp. -/
def toonShadowQuantize (sf : ℚ) : ℚ := if sf < 3 / 4 then 1 / 2 else 1

/-- Modelled from the spec: the shadow-aware Toon fragment shader (spec
section 4.7), absent from src/src/shader.cpp.  The silhouette test (which
happens before the light loop and depends on data outside this claim) is
abstracted as a boolean; otherwise the accumulation is the shadowed light
loop run with the quantized shadow factor from the ambient colour. -/
def toonShadowedFragment (kAmbient : ℚ) (outlineHit : Bool)
    (outlineColor : Color) (terms : List (Color × Color))
    (input : FragmentShaderInput) : Color :=
  if outlineHit then outlineColor
  else
    shadowedLightLoop terms (input.color.mulScalar kAmbient)
      (toonShadowQuantize input.shadowFactor)

/-- The six clip planes in the order clipTriangleWithAttributes applies
them, as (planeIndex, sign) pairs (src/src/rasterizer.cpp lines 260-265). -/
def sixPlanes : List (ℤ × ℤ) := [(0, 1), (0, -1), (1, 1), (1, -1), (2, 1), (3, 0)]

/-- Zeroed interpolant record used by the concrete clipping inputs. -/
def zeroAttrs : VertexShaderOutput :=
  ⟨⟨0, 0, 0, 1⟩, ⟨0, 0, 0⟩, ⟨0, 0, 0⟩, ⟨0, 0⟩, ⟨0, 0, 0, 0⟩, ⟨0, 0, 0, 0⟩⟩

/-- Concrete clip-space vertex inside the near plane (z at least minus w):
z + w = 3. -/
def nearBugP : VertexWithAttributes := ⟨⟨0, 0, 1, 2⟩, zeroAttrs⟩

/-- Concrete clip-space vertex outside the near plane: z + w = -3/4. -/
def nearBugC : VertexWithAttributes := ⟨⟨0, 0, -(3 / 4 : ℚ), 0⟩, zeroAttrs⟩

/-- Concrete clip-space vertex inside the near plane: z + w = 1. -/
def nearBugD : VertexWithAttributes := ⟨⟨0, 0, 0, 1⟩, zeroAttrs⟩

/-- First vertex of the concrete triangle whose clipped polygon escapes
the clip volume; it satisfies all six inside tests. -/
def volBugV1 : VertexWithAttributes := ⟨⟨0, 0, 0, 1⟩, zeroAttrs⟩

/-- Second vertex of that triangle; it violates only the near-plane test
(z + w = -1/2). -/
def volBugV2 : VertexWithAttributes := ⟨⟨0, 0, -(1 / 2 : ℚ), 0⟩, zeroAttrs⟩

/-- Third vertex of that triangle; it satisfies all six inside tests. -/
def volBugV3 : VertexWithAttributes := ⟨⟨0, 0, (1 / 4 : ℚ), 1⟩, zeroAttrs⟩

/-- First vertex of a concrete triangle strictly inside the clip volume. -/
def insideW1 : VertexWithAttributes := ⟨⟨1 / 2, 0, 0, 1⟩, zeroAttrs⟩

/-- Second vertex of that fully inside triangle. -/
def insideW2 : VertexWithAttributes := ⟨⟨0, 1 / 2, 0, 1⟩, zeroAttrs⟩

/-- Third vertex of that fully inside triangle. -/
def insideW3 : VertexWithAttributes := ⟨⟨0, 0, 1 / 2, 1⟩, zeroAttrs⟩

/-- Square root used by the concrete scenario S1: exact on the four
perfect squares the scenario reaches (1, 9, 16, 49), 1 elsewhere. -/
def sqrtS1 : ℚ → ℚ := fun q =>
  if q = 1 then 1 else if q = 9 then 3 else if q = 16 then 4
  else if q = 49 then 7 else 1

/-- Scenario S1 vertex at NDC (-1,-1,0), red, facing +z. -/
def s1Vertex1 : VertexShaderInput := ⟨⟨-1, -1, 0⟩, ⟨0, 0, 1⟩, ⟨0, 0⟩, ⟨255, 0, 0, 255⟩⟩

/-- Scenario S1 vertex at NDC (1,-1,0), red, facing +z. -/
def s1Vertex2 : VertexShaderInput := ⟨⟨1, -1, 0⟩, ⟨0, 0, 1⟩, ⟨0, 0⟩, ⟨255, 0, 0, 255⟩⟩

/-- Scenario S1 vertex at NDC (0,1,0), red, facing +z. -/
def s1Vertex3 : VertexShaderInput := ⟨⟨0, 1, 0⟩, ⟨0, 0, 1⟩, ⟨0, 0⟩, ⟨255, 0, 0, 255⟩⟩

/-- Scenario S1 mesh: the single triangle over the three vertices, with
the identity model matrix. -/
def s1Mesh : MeshData := ⟨[s1Vertex1, s1Vertex2, s1Vertex3], [(0, 1, 2)], Mat4.identity⟩

/-- Scenario S1 camera position, on the +z axis through the triangle
centroid (so the view direction is exactly (0,0,1) and the slope-scaled
depth bias is exactly zero). -/
def s1CameraPos : Vec3 := ⟨0, -(1 / 3), 7⟩

/-- Scenario S1 clear colour (opaque black). -/
def s1ClearColor : Color := ⟨0, 0, 0, 255⟩

/-- Scenario S1: a fresh 4 by 4 rasterizer, cleared to opaque black, then
renderMesh of the single red triangle with identity matrices and the
flat-colour shader configured (white own colour) to return the
interpolated vertex colour. -/
def renderS1 : RState :=
  renderMesh sqrtS1 Mat4.identity Mat4.identity Mat4.identity
    (flatFragmentShader ⟨255, 255, 255, 255⟩) s1CameraPos s1Mesh
    (clear (mkRasterizer 4 4) s1ClearColor)

/-- The packed scenario S1 clear colour: opaque black. -/
def s1ClearPacked : ℕ := s1ClearColor.toUint32

/-- The packed scenario S1 triangle colour: opaque red. -/
def s1RedPacked : ℕ := Color.toUint32 ⟨255, 0, 0, 255⟩

/-- Square root used by the concrete culling witness: exact on the
perfect squares 1, 9 and 25 that the witness triangle reaches. -/
def wSqrtC5 : ℚ → ℚ := fun q =>
  if q = 1 then 1 else if q = 9 then 3 else if q = 25 then 5 else 1

/-- First interpolant record of the concrete culling witness triangle:
world position (0,0,0), unit +z normal. -/
def wOut1 : VertexShaderOutput :=
  ⟨⟨0, 0, 0, 1⟩, ⟨0, 0, 0⟩, ⟨0, 0, 1⟩, ⟨0, 0⟩, ⟨255, 0, 0, 255⟩, ⟨0, 0, 0, 1⟩⟩

/-- Second interpolant record of the witness triangle: world position
(1,0,0), unit +z normal. -/
def wOut2 : VertexShaderOutput :=
  ⟨⟨0, 0, 0, 1⟩, ⟨1, 0, 0⟩, ⟨0, 0, 1⟩, ⟨0, 0⟩, ⟨255, 0, 0, 255⟩, ⟨0, 0, 0, 1⟩⟩

/-- Third interpolant record of the witness triangle: world position
(0,1,0), unit +z normal. -/
def wOut3 : VertexShaderOutput :=
  ⟨⟨0, 0, 0, 1⟩, ⟨0, 1, 0⟩, ⟨0, 0, 1⟩, ⟨0, 0⟩, ⟨255, 0, 0, 255⟩, ⟨0, 0, 0, 1⟩⟩

/-- Concrete shadow state whose map stores -1 everywhere, so every PCF
sample is occluded. -/
def stAllOcc : RState := { mkRasterizer 2 2 with shadowMap := fun _ => -1 }

/-- Concrete shadow state whose map stores -1 only at the centre texel of
the lookup at the world origin (index 1023 * 2048 + 1023), so exactly one
of the 49 PCF samples is occluded. -/
def stOneOcc : RState :=
  { mkRasterizer 2 2 with shadowMap := fun idx => if idx = 2096127 then -1 else 1 }

/-- Both framebuffers of the first state have the same sizes as those of
the second: the no-resize relation of the buffer-size invariant. -/
def buffersSizedLike (a b : RState) : Prop :=
  a.colorBuffer.length = b.colorBuffer.length ∧
  a.depthBuffer.length = b.depthBuffer.length

theorem clipEdge_of_inside {planeIndex sign : ℤ} {p c : VertexWithAttributes}
    (hp : isInsidePlane p.position planeIndex sign = true)
    (hc : isInsidePlane c.position planeIndex sign = true) :
    clipEdge planeIndex sign p c = [c] := by
  simp [clipEdge, hp, hc]

theorem clipFold_of_inside (planeIndex sign : ℤ) :
    ∀ (vs : List VertexWithAttributes),
      (∀ v ∈ vs, isInsidePlane v.position planeIndex sign = true) →
      ∀ (acc : List VertexWithAttributes) (prev : VertexWithAttributes),
        isInsidePlane prev.position planeIndex sign = true →
        (vs.foldl
          (fun a current => (a.1 ++ clipEdge planeIndex sign a.2 current, current))
          (acc, prev)).1 = acc ++ vs := by
  intro vs
  induction vs with
  | nil => intro _ acc prev _; simp
  | cons c rest ih =>
    intro hall acc prev hprev
    have hc := hall c (List.mem_cons_self c rest)
    simp only [List.foldl_cons]
    rw [clipEdge_of_inside hprev hc]
    rw [ih (fun v hv => hall v (List.mem_cons_of_mem c hv)) (acc ++ [c]) c hc]
    simp

theorem clipAgainstPlane_of_inside (planeIndex sign : ℤ)
    (vs : List VertexWithAttributes) (hne : vs ≠ [])
    (hall : ∀ v ∈ vs, isInsidePlane v.position planeIndex sign = true) :
    clipAgainstPlaneWithAttributes vs planeIndex sign = vs := by
  have hlast : isInsidePlane (vs.getLast hne).position planeIndex sign = true :=
    hall _ (List.getLast_mem hne)
  unfold clipAgainstPlaneWithAttributes
  rw [List.getLast?_eq_getLast vs hne]
  exact (clipFold_of_inside planeIndex sign vs hall [] (vs.getLast hne) hlast).trans
    (List.nil_append vs)

/-- C7: a triangle whose three vertices pass the inside test of every one
of the six clip planes is returned unchanged by clipping: the exact same
three vertices in the same order, positions and all attributes identical
(exact equality in this rational model, hence within any tolerance). -/
theorem clip_fully_inside_triangle_is_identity
    (v1 v2 v3 : VertexWithAttributes)
    (h : ∀ pr ∈ sixPlanes, ∀ v ∈ [v1, v2, v3],
      isInsidePlane v.position pr.1 pr.2 = true) :
    clipTriangleWithAttributes v1 v2 v3 = [v1, v2, v3] := by
  have h1 := h (0, 1) (by simp [sixPlanes])
  have h2 := h (0, -1) (by simp [sixPlanes])
  have h3 := h (1, 1) (by simp [sixPlanes])
  have h4 := h (1, -1) (by simp [sixPlanes])
  have h5 := h (2, 1) (by simp [sixPlanes])
  have h6 := h (3, 0) (by simp [sixPlanes])
  simp only [clipTriangleWithAttributes]
  rw [clipAgainstPlane_of_inside 0 1 _ (by simp) h1,
    clipAgainstPlane_of_inside 0 (-1) _ (by simp) h2,
    clipAgainstPlane_of_inside 1 1 _ (by simp) h3,
    clipAgainstPlane_of_inside 1 (-1) _ (by simp) h4,
    clipAgainstPlane_of_inside 2 1 _ (by simp) h5,
    clipAgainstPlane_of_inside 3 0 _ (by simp) h6]

/-- Witness for C7: a concrete triangle strictly inside the clip volume
passes all six inside tests and is returned unchanged by clipping. -/
theorem clip_fully_inside_triangle_is_identity_witness :
    (∀ pr ∈ sixPlanes, ∀ v ∈ [insideW1, insideW2, insideW3],
      isInsidePlane v.position pr.1 pr.2 = true) ∧
    clipTriangleWithAttributes insideW1 insideW2 insideW3 =
      [insideW1, insideW2, insideW3] :=
  ⟨by with_unfolding_all decide,
   clip_fully_inside_triangle_is_identity insideW1 insideW2 insideW3
     (by with_unfolding_all decide)⟩

/-- C1 (code bug, z-plane intersection parameter): on the near plane
(planeIndex 2, sign 1) the edge from nearBugP (inside, z + w = 3) to
nearBugC (outside, z + w = -3/4) crosses the plane boundary z = -w at
parameter 4/5, yet intersectionParameter computes 12 (clamped to 1)
because its denominator flips the sign of the z difference, so the vertex
the clipper emits for this inside-to-outside edge is nearBugC itself, a
point that does not satisfy the plane equation z + w = 0 (it is not the
edge-plane intersection) and even fails the inside test. -/
theorem clip_near_plane_emits_point_off_plane :
    isInsidePlane nearBugP.position 2 1 = true ∧
    isInsidePlane nearBugC.position 2 1 = false ∧
    intersectionParameter nearBugP.position nearBugC.position 2 1 = 1 ∧
    (clipAgainstPlaneWithAttributes [nearBugP, nearBugC, nearBugD] 2 1).get? 1 =
      some nearBugC ∧
    nearBugC.position.z + nearBugC.position.w ≠ 0 := by
  with_unfolding_all decide

/-- C6 (code bug, clipped polygon escapes the clip volume): clipping the
concrete triangle (volBugV1, volBugV2, volBugV3) against all six planes
returns a four-vertex polygon whose second vertex is volBugV2, which fails
the near-plane inside test z at least minus w — a consequence of the
sign slip in the z-plane intersection parameter, whose clamped value 1
makes the clipper emit the outside endpoint itself. -/
theorem clip_output_vertex_outside_clip_volume :
    (clipTriangleWithAttributes volBugV1 volBugV2 volBugV3).length = 4 ∧
    (clipTriangleWithAttributes volBugV1 volBugV2 volBugV3).get? 1 =
      some volBugV2 ∧
    isInsidePlane volBugV2.position 2 1 = false := by
  with_unfolding_all decide

theorem clampQ_nonneg (hi q : ℚ) (_h : 0 ≤ hi) : 0 ≤ clampQ 0 hi q :=
  le_max_left 0 _

theorem clampQ_le (hi q : ℚ) (h : 0 ≤ hi) : clampQ 0 hi q ≤ hi :=
  max_le h (min_le_left hi q)

theorem u8_le_of_le {q : ℚ} (h0 : 0 ≤ q) (h : q ≤ 255) : u8 q ≤ 255 := by
  unfold u8 truncZ
  rw [if_neg (not_lt.mpr h0)]
  have hfl : (⌊q⌋ : ℤ) ≤ 255 := by
    have : (⌊q⌋ : ℤ) ≤ ⌊(255 : ℚ)⌋ := Int.floor_le_floor h
    simpa using this
  omega

theorem mulScalar_channels_le (c : Color) (s : ℚ) :
    (c.mulScalar s).r ≤ 255 ∧ (c.mulScalar s).g ≤ 255 ∧ (c.mulScalar s).b ≤ 255 := by
  refine ⟨?_, ?_, ?_⟩ <;>
    exact u8_le_of_le (clampQ_nonneg _ _ (by norm_num)) (clampQ_le _ _ (by norm_num))

theorem mulScalar_zero_rgb (c : Color) :
    (c.mulScalar 0).r = 0 ∧ (c.mulScalar 0).g = 0 ∧ (c.mulScalar 0).b = 0 := by
  unfold Color.mulScalar clampQ u8 truncZ
  norm_num

theorem shadowedLightLoop_zero_rgb (terms : List (Color × Color)) :
    ∀ amb : Color, amb.r ≤ 255 → amb.g ≤ 255 → amb.b ≤ 255 →
      (shadowedLightLoop terms amb 0).r = amb.r ∧
      (shadowedLightLoop terms amb 0).g = amb.g ∧
      (shadowedLightLoop terms amb 0).b = amb.b := by
  induction terms with
  | nil => intro amb _ _ _; exact ⟨rfl, rfl, rfl⟩
  | cons ds rest ih =>
    intro amb hr hg hb
    have step :
        ((amb.addC (ds.1.mulScalar 0)).addC (ds.2.mulScalar 0)) =
          ⟨amb.r, amb.g, amb.b,
            min (min (amb.a + (ds.1.mulScalar 0).a) 255 + (ds.2.mulScalar 0).a) 255⟩ := by
      obtain ⟨h1r, h1g, h1b⟩ := mulScalar_zero_rgb ds.1
      obtain ⟨h2r, h2g, h2b⟩ := mulScalar_zero_rgb ds.2
      simp [Color.addC, h1r, h1g, h1b, h2r, h2g, h2b, Nat.min_eq_left, hr, hg, hb]
    have := ih ⟨amb.r, amb.g, amb.b,
      min (min (amb.a + (ds.1.mulScalar 0).a) 255 + (ds.2.mulScalar 0).a) 255⟩ hr hg hb
    simpa [shadowedLightLoop, step] using this

/-- C2: in the shadow-aware PhongBlinn and Toon fragment shaders (modelled
from the spec, since the shadow-aware shader variant is missing from
src/), for every fragment and every light the diffuse and the specular
contribution are multiplied by the fragment's shadow factor (the quantized
factor in Toon mode) before being added to the running result, while the
ambient start is built from the base colour and ambient coefficient alone:
it does not change when the shadow factor does, and with shadow factor 0
all light contributions vanish from the r, g, b channels, leaving exactly
the ambient colour. -/
theorem shadow_factor_scales_diffuse_specular_not_ambient
    (kAmbient : ℚ) (terms : List (Color × Color))
    (input : FragmentShaderInput) (sf : ℚ) (outlineColor : Color) :
    (phongShadowedFragment kAmbient terms input =
      terms.foldl
        (fun result ds =>
          (result.addC (ds.1.mulScalar input.shadowFactor)).addC
            (ds.2.mulScalar input.shadowFactor))
        (input.color.mulScalar kAmbient)) ∧
    (toonShadowedFragment kAmbient false outlineColor terms input =
      terms.foldl
        (fun result ds =>
          (result.addC (ds.1.mulScalar (toonShadowQuantize input.shadowFactor))).addC
            (ds.2.mulScalar (toonShadowQuantize input.shadowFactor)))
        (input.color.mulScalar kAmbient)) ∧
    (phongShadowedFragment kAmbient terms { input with shadowFactor := sf } =
      shadowedLightLoop terms (input.color.mulScalar kAmbient) sf) ∧
    ((phongShadowedFragment kAmbient terms { input with shadowFactor := 0 }).r =
        (input.color.mulScalar kAmbient).r ∧
      (phongShadowedFragment kAmbient terms { input with shadowFactor := 0 }).g =
        (input.color.mulScalar kAmbient).g ∧
      (phongShadowedFragment kAmbient terms { input with shadowFactor := 0 }).b =
        (input.color.mulScalar kAmbient).b) := by
  obtain ⟨hr, hg, hb⟩ := mulScalar_channels_le input.color kAmbient
  exact ⟨rfl, rfl, rfl,
    shadowedLightLoop_zero_rgb terms (input.color.mulScalar kAmbient) hr hg hb⟩

/-- C3: in the per-pixel loop of renderMesh, with the pixel's buffer index
in range, the colour and depth entries at that index are written exactly
when the pixel is covered and the tested depth (perspective-correct
interpolated NDC depth minus the slope-scaled bias) is strictly below the
stored depth; in that case the written values are the fragment shader's
packed colour and the tested depth, every other entry is untouched, and
when the test fails the whole state, in particular both entries, is
unchanged. -/
theorem depth_test_governs_pixel_writes
    (sqrtS : ℚ → ℚ) (fragShader : FragmentShaderInput → Color)
    (cv1 cv2 cv3 : VertexWithAttributes) (s1 s2 s3 : Vec4)
    (facingDot : ℚ) (x y : ℤ) (st : RState)
    (hC : (y * st.width + x).toNat < st.colorBuffer.length)
    (hD : (y * st.width + x).toNat < st.depthBuffer.length) :
    (pixelCovered s1 s2 s3 x y = true ∧
        zTestAt cv1 cv2 cv3 s1 s2 s3 facingDot x y <
          (st.depthBuffer.get? (y * st.width + x).toNat).getD 1 →
      (processPixel sqrtS fragShader cv1 cv2 cv3 s1 s2 s3 facingDot x y
            st).colorBuffer.get? (y * st.width + x).toNat =
          some ((fragShader
            (fragInputAt sqrtS st cv1 cv2 cv3 s1 s2 s3 x y)).toUint32) ∧
      (processPixel sqrtS fragShader cv1 cv2 cv3 s1 s2 s3 facingDot x y
            st).depthBuffer.get? (y * st.width + x).toNat =
          some (zTestAt cv1 cv2 cv3 s1 s2 s3 facingDot x y) ∧
      ∀ j : ℕ, j ≠ (y * st.width + x).toNat →
        (processPixel sqrtS fragShader cv1 cv2 cv3 s1 s2 s3 facingDot x y
            st).colorBuffer.get? j = st.colorBuffer.get? j ∧
        (processPixel sqrtS fragShader cv1 cv2 cv3 s1 s2 s3 facingDot x y
            st).depthBuffer.get? j = st.depthBuffer.get? j) ∧
    (¬ (pixelCovered s1 s2 s3 x y = true ∧
        zTestAt cv1 cv2 cv3 s1 s2 s3 facingDot x y <
          (st.depthBuffer.get? (y * st.width + x).toNat).getD 1) →
      processPixel sqrtS fragShader cv1 cv2 cv3 s1 s2 s3 facingDot x y st = st) := by
  constructor
  · rintro ⟨hcov, htest⟩
    simp only [processPixel]
    rw [if_pos hcov, if_pos htest]
    refine ⟨?_, ?_, ?_⟩
    · show (st.colorBuffer.set _ _).get? _ = _
      simpa [List.get?_eq_getElem?] using
        List.getElem?_set_self (a := (fragShader
          (fragInputAt sqrtS st cv1 cv2 cv3 s1 s2 s3 x y)).toUint32) hC
    · show (st.depthBuffer.set _ _).get? _ = _
      simpa [List.get?_eq_getElem?] using
        List.getElem?_set_self
          (a := zTestAt cv1 cv2 cv3 s1 s2 s3 facingDot x y) hD
    · intro j hj
      constructor
      · show (st.colorBuffer.set _ _).get? _ = _
        simpa [List.get?_eq_getElem?] using
          List.getElem?_set_ne (l := st.colorBuffer)
            (a := (fragShader
              (fragInputAt sqrtS st cv1 cv2 cv3 s1 s2 s3 x y)).toUint32)
            (fun h => hj h.symm)
      · show (st.depthBuffer.set _ _).get? _ = _
        simpa [List.get?_eq_getElem?] using
          List.getElem?_set_ne (l := st.depthBuffer)
            (a := zTestAt cv1 cv2 cv3 s1 s2 s3 facingDot x y)
            (fun h => hj h.symm)
  · intro hneg
    by_cases hcov : pixelCovered s1 s2 s3 x y = true
    · have htest : ¬ zTestAt cv1 cv2 cv3 s1 s2 s3 facingDot x y <
          (st.depthBuffer.get? (y * st.width + x).toNat).getD 1 :=
        fun ht => hneg ⟨hcov, ht⟩
      simp only [processPixel]
      rw [if_pos hcov, if_neg htest]
    · simp only [processPixel]
      rw [if_neg hcov]

theorem backface_cull_skips_before_clipping
    (sqrtS : ℚ → ℚ) (fragShader : FragmentShaderInput → Color) (cam : Vec3)
    (o1 o2 o3 : VertexShaderOutput) (st : RState)
    (hcull : shouldCull sqrtS st.wireframeMode o1 o2 o3 cam = true) :
    renderTriangle sqrtS fragShader cam o1 o2 o3 st = st := by
  simp only [renderTriangle]
  rw [if_pos hcull]

/-- C5: the per-triangle pipeline culls (skips the triangle entirely,
leaving the state unchanged) exactly when wireframe mode is off and the
larger of face-normal dot view and averaged-vertex-normal dot view is
below -0.7, where the view direction is the normalized direction from the
centroid to the camera, the face normal is the normalized cross product of
the two edge vectors, and, provided the three vertex normals are already
normalized (as the vertex stage guarantees), the averaged vertex normal is
the normalized sum of the three vertex normals. -/
theorem backface_cull_iff (sqrtS : ℚ → ℚ) (wf : Bool)
    (o1 o2 o3 : VertexShaderOutput) (cam : Vec3)
    (h1 : o1.normal.normalizedW sqrtS = o1.normal)
    (h2 : o2.normal.normalizedW sqrtS = o2.normal)
    (h3 : o3.normal.normalizedW sqrtS = o3.normal) :
    (shouldCull sqrtS wf o1 o2 o3 cam = true ↔
      (wf = false ∧
        max ((faceNormalOf sqrtS o1 o2 o3).dot (viewDirOf sqrtS o1 o2 o3 cam))
          (((o1.normal + o2.normal + o3.normal).normalizedW sqrtS).dot
            (viewDirOf sqrtS o1 o2 o3 cam)) < -(7 / 10))) ∧
    (∀ (fragShader : FragmentShaderInput → Color) (st : RState),
      shouldCull sqrtS st.wireframeMode o1 o2 o3 cam = true →
      renderTriangle sqrtS fragShader cam o1 o2 o3 st = st) := by
  have havg : avgVertexNormalOf sqrtS o1 o2 o3 =
      (o1.normal + o2.normal + o3.normal).normalizedW sqrtS := by
    unfold avgVertexNormalOf
    rw [h1, h2, h3]
  constructor
  · simp only [shouldCull, bestDotOf, havg, Bool.and_eq_true, Bool.not_eq_true',
      decide_eq_true_eq]
    constructor
    · rintro ⟨hw, hm⟩
      exact ⟨hw, by rwa [max_comm]⟩
    · rintro ⟨hw, hm⟩
      exact ⟨hw, by rwa [max_comm]⟩
  · intro fragShader st hcull
    exact backface_cull_skips_before_clipping sqrtS fragShader cam o1 o2 o3 st hcull

/-- Witness for C5: a concrete back-facing triangle (unit +z normals,
camera straight below along -z) satisfies the normalization hypotheses,
its culling score -1 is below -0.7, the culling decision fires, and the
per-triangle pipeline leaves a concrete rasterizer state unchanged. -/
theorem backface_cull_iff_witness :
    (Vec3.normalizedW wSqrtC5 ⟨0, 0, 1⟩ = ⟨0, 0, 1⟩) ∧
    shouldCull wSqrtC5 false wOut1 wOut2 wOut3 ⟨1 / 3, 1 / 3, -5⟩ = true ∧
    renderTriangle wSqrtC5 (flatFragmentShader ⟨255, 255, 255, 255⟩)
      ⟨1 / 3, 1 / 3, -5⟩ wOut1 wOut2 wOut3 (mkRasterizer 2 2) =
      mkRasterizer 2 2 :=
  ⟨by with_unfolding_all decide,
   (backface_cull_iff wSqrtC5 false wOut1 wOut2 wOut3 ⟨1 / 3, 1 / 3, -5⟩
      (by with_unfolding_all decide) (by with_unfolding_all decide)
      (by with_unfolding_all decide)).1.mpr
     ⟨rfl, by with_unfolding_all decide⟩,
   (backface_cull_iff wSqrtC5 false wOut1 wOut2 wOut3 ⟨1 / 3, 1 / 3, -5⟩
      (by with_unfolding_all decide) (by with_unfolding_all decide)
      (by with_unfolding_all decide)).2
     (flatFragmentShader ⟨255, 255, 255, 255⟩) (mkRasterizer 2 2)
     (by with_unfolding_all decide)⟩

theorem map_const_replicate {α β : Type _} (v : β) :
    ∀ l : List α, l.map (fun _ => v) = List.replicate l.length v := by
  intro l
  induction l with
  | nil => rfl
  | cons a rest ih => simp [ih, List.replicate_succ]

theorem drawPoint_sizes (st : RState) (x y : ℤ) (c : Color) :
    buffersSizedLike (drawPoint st x y c) st := by
  unfold drawPoint buffersSizedLike
  split <;> simp

theorem drawPoint_dims (st : RState) (x y : ℤ) (c : Color) :
    (drawPoint st x y c).width = st.width ∧
    (drawPoint st x y c).height = st.height := by
  unfold drawPoint
  split <;> exact ⟨rfl, rfl⟩

theorem drawLineLoop_sizes (c : Color) (x2 y2 dx dy sx sy : ℤ) :
    ∀ (fuel : ℕ) (x1 y1 err : ℤ) (st : RState),
      buffersSizedLike (drawLineLoop c x2 y2 dx dy sx sy fuel x1 y1 err st) st := by
  intro fuel
  induction fuel with
  | zero => intro x1 y1 err st; exact ⟨rfl, rfl⟩
  | succ n ih =>
    intro x1 y1 err st
    simp only [drawLineLoop]
    split
    · exact drawPoint_sizes st x1 y1 c
    · exact ⟨(ih _ _ _ _).1.trans (drawPoint_sizes st x1 y1 c).1,
        (ih _ _ _ _).2.trans (drawPoint_sizes st x1 y1 c).2⟩

theorem drawLine_sizes (st : RState) (x1 y1 x2 y2 : ℤ) (c : Color) :
    buffersSizedLike (drawLine st x1 y1 x2 y2 c) st := by
  simp only [drawLine]
  exact drawLineLoop_sizes c x2 y2 _ _ _ _ _ x1 y1 _ st

theorem processPixel_sizes (sqrtS : ℚ → ℚ)
    (fragShader : FragmentShaderInput → Color)
    (cv1 cv2 cv3 : VertexWithAttributes) (s1 s2 s3 : Vec4) (facingDot : ℚ)
    (x y : ℤ) (st : RState) :
    buffersSizedLike
      (processPixel sqrtS fragShader cv1 cv2 cv3 s1 s2 s3 facingDot x y st) st := by
  simp only [processPixel, buffersSizedLike]
  split_ifs <;> simp

theorem foldl_sizes {β : Type _} (f : RState → β → RState)
    (hf : ∀ s b, buffersSizedLike (f s b) s) :
    ∀ (l : List β) (st : RState), buffersSizedLike (l.foldl f st) st := by
  intro l
  induction l with
  | nil => intro st; exact ⟨rfl, rfl⟩
  | cons b rest ih =>
    intro st
    rw [List.foldl_cons]
    exact ⟨(ih (f st b)).1.trans (hf st b).1, (ih (f st b)).2.trans (hf st b).2⟩

theorem subTrianglePixels_sizes (sqrtS : ℚ → ℚ)
    (fragShader : FragmentShaderInput → Color)
    (cv1 cv2 cv3 : VertexWithAttributes) (s1 s2 s3 : Vec4) (facingDot : ℚ)
    (st : RState) :
    buffersSizedLike
      (subTrianglePixels sqrtS fragShader cv1 cv2 cv3 s1 s2 s3 facingDot st) st := by
  simp only [subTrianglePixels]
  exact foldl_sizes _
    (fun s yy => foldl_sizes _
      (fun s2i xx => processPixel_sizes sqrtS fragShader cv1 cv2 cv3 s1 s2 s3 facingDot xx yy s2i)
      _ s)
    _ st

theorem wireframePass_sizes (st : RState) (facingDot : ℚ) (s1 s2 s3 : Vec4) :
    buffersSizedLike (wireframePass st facingDot s1 s2 s3) st := by
  unfold wireframePass
  split
  · exact ⟨((drawLine_sizes _ _ _ _ _ _).1.trans (drawLine_sizes _ _ _ _ _ _).1).trans
      (drawLine_sizes _ _ _ _ _ _).1,
      ((drawLine_sizes _ _ _ _ _ _).2.trans (drawLine_sizes _ _ _ _ _ _).2).trans
      (drawLine_sizes _ _ _ _ _ _).2⟩
  · exact ⟨rfl, rfl⟩

theorem renderTriangle_sizes (sqrtS : ℚ → ℚ)
    (fragShader : FragmentShaderInput → Color) (cam : Vec3)
    (o1 o2 o3 : VertexShaderOutput) (st : RState) :
    buffersSizedLike (renderTriangle sqrtS fragShader cam o1 o2 o3 st) st := by
  simp only [renderTriangle]
  split
  · exact ⟨rfl, rfl⟩
  · split
    · exact ⟨rfl, rfl⟩
    · exact foldl_sizes _
        (fun s i =>
          ⟨(wireframePass_sizes _ _ _ _ _).1.trans
            (subTrianglePixels_sizes sqrtS fragShader _ _ _ _ _ _ _ s).1,
           (wireframePass_sizes _ _ _ _ _).2.trans
            (subTrianglePixels_sizes sqrtS fragShader _ _ _ _ _ _ _ s).2⟩)
        _ st

theorem renderMesh_sizes (sqrtS : ℚ → ℚ) (view proj lightMat : Mat4)
    (fragShader : FragmentShaderInput → Color) (cam : Vec3) (mesh : MeshData)
    (st : RState) :
    buffersSizedLike (renderMesh sqrtS view proj lightMat fragShader cam mesh st) st := by
  simp only [renderMesh]
  exact foldl_sizes _ (fun s tri => renderTriangle_sizes sqrtS fragShader cam _ _ _ s) _ st

/-- C8: from construction the colour and depth buffers both have exactly
width times height entries; clear rewrites every colour entry to the
32-bit packing of the given colour and every depth entry to 1.0 while
keeping the sizes; and none of the embedded operations (clear, drawPoint,
the Bresenham loop at any fuel, the pixel write, the per-triangle
pipeline, renderMesh) ever changes the size of either buffer. -/
theorem clear_fills_buffers_and_nothing_resizes :
    (∀ w h : ℤ, (mkRasterizer w h).colorBuffer.length = (w * h).toNat ∧
      (mkRasterizer w h).depthBuffer.length = (w * h).toNat) ∧
    (∀ (st : RState) (c : Color),
      (clear st c).colorBuffer = List.replicate st.colorBuffer.length c.toUint32 ∧
      (clear st c).depthBuffer = List.replicate st.depthBuffer.length 1 ∧
      buffersSizedLike (clear st c) st) ∧
    (∀ (st : RState) (x y : ℤ) (c : Color), buffersSizedLike (drawPoint st x y c) st) ∧
    (∀ (c : Color) (x2 y2 dx dy sx sy : ℤ) (fuel : ℕ) (x1 y1 err : ℤ) (st : RState),
      buffersSizedLike (drawLineLoop c x2 y2 dx dy sx sy fuel x1 y1 err st) st) ∧
    (∀ (sqrtS : ℚ → ℚ) (fragShader : FragmentShaderInput → Color)
        (cv1 cv2 cv3 : VertexWithAttributes) (s1 s2 s3 : Vec4) (facingDot : ℚ)
        (x y : ℤ) (st : RState),
      buffersSizedLike
        (processPixel sqrtS fragShader cv1 cv2 cv3 s1 s2 s3 facingDot x y st) st) ∧
    (∀ (sqrtS : ℚ → ℚ) (fragShader : FragmentShaderInput → Color) (cam : Vec3)
        (o1 o2 o3 : VertexShaderOutput) (st : RState),
      buffersSizedLike (renderTriangle sqrtS fragShader cam o1 o2 o3 st) st) ∧
    (∀ (sqrtS : ℚ → ℚ) (view proj lightMat : Mat4)
        (fragShader : FragmentShaderInput → Color) (cam : Vec3)
        (mesh : MeshData) (st : RState),
      buffersSizedLike (renderMesh sqrtS view proj lightMat fragShader cam mesh st) st) := by
  refine ⟨?_, ?_, drawPoint_sizes, ?_, processPixel_sizes, renderTriangle_sizes,
    renderMesh_sizes⟩
  · intro w h
    simp [mkRasterizer]
  · intro st c
    refine ⟨map_const_replicate _ _, map_const_replicate _ _, ?_, ?_⟩ <;>
      simp [clear]
  · intro c x2 y2 dx dy sx sy fuel x1 y1 err st
    exact drawLineLoop_sizes c x2 y2 dx dy sx sy fuel x1 y1 err st

theorem drawPoint_keeps_far_entries (st : RState) (x y : ℤ) (c : Color) (i : ℕ)
    (hi : ∀ xx yy : ℤ, 0 ≤ xx → xx < st.width → 0 ≤ yy → yy < st.height →
      i ≠ (yy * st.width + xx).toNat) :
    (drawPoint st x y c).colorBuffer.get? i = st.colorBuffer.get? i := by
  unfold drawPoint
  by_cases hg : x < 0 ∨ x ≥ st.width ∨ y < 0 ∨ y ≥ st.height
  · rw [if_pos hg]
  · rw [if_neg hg]
    push_neg at hg
    obtain ⟨hx0, hxW, hy0, hyH⟩ := hg
    show (st.colorBuffer.set _ _).get? i = _
    simpa [List.get?_eq_getElem?] using
      List.getElem?_set_ne (l := st.colorBuffer) (a := c.toUint32)
        (fun h => hi x y hx0 hxW hy0 hyH h.symm)

theorem drawLineLoop_keeps_far_entries (c : Color) (x2 y2 dx dy sx sy : ℤ) :
    ∀ (fuel : ℕ) (x1 y1 err : ℤ) (st : RState) (i : ℕ),
      (∀ xx yy : ℤ, 0 ≤ xx → xx < st.width → 0 ≤ yy → yy < st.height →
        i ≠ (yy * st.width + xx).toNat) →
      (drawLineLoop c x2 y2 dx dy sx sy fuel x1 y1 err st).colorBuffer.get? i =
        st.colorBuffer.get? i := by
  intro fuel
  induction fuel with
  | zero => intro x1 y1 err st i _; rfl
  | succ n ih =>
    intro x1 y1 err st i hi
    have hdims := drawPoint_dims st x1 y1 c
    have hi1 : ∀ xx yy : ℤ, 0 ≤ xx → xx < (drawPoint st x1 y1 c).width →
        0 ≤ yy → yy < (drawPoint st x1 y1 c).height →
        i ≠ (yy * (drawPoint st x1 y1 c).width + xx).toNat := by
      intro xx yy a b a2 b2
      rw [hdims.1] at b ⊢
      rw [hdims.2] at b2
      exact hi xx yy a b a2 b2
    simp only [drawLineLoop]
    split
    · exact drawPoint_keeps_far_entries st x1 y1 c i hi
    · exact (ih _ _ _ (drawPoint st x1 y1 c) i hi1).trans
        (drawPoint_keeps_far_entries st x1 y1 c i hi)

/-- C10: drawPoint invoked with any coordinates outside the framebuffer
leaves the state (in particular the colour buffer) entirely unchanged,
and consequently the Bresenham line loop at any fuel, and drawLine itself
(used for wireframe edges), never touches a colour-buffer entry whose
index is not that of some in-bounds pixel, for any endpoint coordinates. -/
theorem draw_ops_stay_in_framebuffer :
    (∀ (st : RState) (x y : ℤ) (c : Color),
      (x < 0 ∨ x ≥ st.width ∨ y < 0 ∨ y ≥ st.height) → drawPoint st x y c = st) ∧
    (∀ (c : Color) (x2 y2 dx dy sx sy : ℤ) (fuel : ℕ) (x1 y1 err : ℤ)
        (st : RState) (i : ℕ),
      (∀ xx yy : ℤ, 0 ≤ xx → xx < st.width → 0 ≤ yy → yy < st.height →
        i ≠ (yy * st.width + xx).toNat) →
      (drawLineLoop c x2 y2 dx dy sx sy fuel x1 y1 err st).colorBuffer.get? i =
        st.colorBuffer.get? i) ∧
    (∀ (st : RState) (x1 y1 x2 y2 : ℤ) (c : Color) (i : ℕ),
      (∀ xx yy : ℤ, 0 ≤ xx → xx < st.width → 0 ≤ yy → yy < st.height →
        i ≠ (yy * st.width + xx).toNat) →
      (drawLine st x1 y1 x2 y2 c).colorBuffer.get? i = st.colorBuffer.get? i) := by
  refine ⟨?_, ?_, ?_⟩
  · intro st x y c hg
    unfold drawPoint
    rw [if_pos hg]
  · intro c x2 y2 dx dy sx sy fuel x1 y1 err st i hi
    exact drawLineLoop_keeps_far_entries c x2 y2 dx dy sx sy fuel x1 y1 err st i hi
  · intro st x1 y1 x2 y2 c i hi
    simp only [drawLine]
    exact drawLineLoop_keeps_far_entries c x2 y2 _ _ _ _ _ x1 y1 _ st i hi

/-- Witness for C10: on a concrete 2 by 2 rasterizer, drawPoint at the
out-of-bounds coordinates (-1, 0) changes nothing, and a drawLine across
the whole plane leaves the out-of-framebuffer colour index 5 untouched. -/
theorem draw_ops_stay_in_framebuffer_witness :
    drawPoint (mkRasterizer 2 2) (-1) 0 ⟨255, 0, 0, 255⟩ = mkRasterizer 2 2 ∧
    (drawLine (mkRasterizer 2 2) (-5) (-5) 5 5 ⟨255, 0, 0, 255⟩).colorBuffer.get? 5 =
      (mkRasterizer 2 2).colorBuffer.get? 5 :=
  ⟨draw_ops_stay_in_framebuffer.1 (mkRasterizer 2 2) (-1) 0 ⟨255, 0, 0, 255⟩
     (by with_unfolding_all decide),
   draw_ops_stay_in_framebuffer.2.2 (mkRasterizer 2 2) (-5) (-5) 5 5
     ⟨255, 0, 0, 255⟩ 5
     (by
       intro xx yy h1 h2 h3 h4
       have hw : (mkRasterizer 2 2).width = 2 := rfl
       have hh : (mkRasterizer 2 2).height = 2 := rfl
       rw [hw] at h2 ⊢
       rw [hh] at h4
       omega)⟩

theorem pairFold_le (P Q : ℤ × ℤ → Prop) [DecidablePred P] [DecidablePred Q] :
    ∀ (l : List (ℤ × ℤ)) (a b : ℕ), a ≤ b →
      (l.foldl
        (fun (acc : ℕ × ℕ) off =>
          if P off then (if Q off then acc.1 + 1 else acc.1, acc.2 + 1) else acc)
        (a, b)).1 ≤
      (l.foldl
        (fun (acc : ℕ × ℕ) off =>
          if P off then (if Q off then acc.1 + 1 else acc.1, acc.2 + 1) else acc)
        (a, b)).2 := by
  intro l
  induction l with
  | nil => intro a b h; exact h
  | cons x rest ih =>
    intro a b h
    simp only [List.foldl_cons]
    by_cases hp : P x
    · rw [if_pos hp]
      by_cases hq : Q x
      · rw [if_pos hq]; exact ih (a + 1) (b + 1) (Nat.succ_le_succ h)
      · rw [if_neg hq]; exact ih a (b + 1) (Nat.le_succ_of_le h)
    · rw [if_neg hp]; exact ih a b h

theorem pairFold_snd (P Q : ℤ × ℤ → Prop) [DecidablePred P] [DecidablePred Q] :
    ∀ (l : List (ℤ × ℤ)) (a b : ℕ),
      (l.foldl
        (fun (acc : ℕ × ℕ) off =>
          if P off then (if Q off then acc.1 + 1 else acc.1, acc.2 + 1) else acc)
        (a, b)).2 = b + l.countP (fun off => decide (P off)) := by
  intro l
  induction l with
  | nil => intro a b; simp
  | cons x rest ih =>
    intro a b
    simp only [List.foldl_cons, List.countP_cons]
    by_cases hp : P x
    · rw [if_pos hp]
      by_cases hq : Q x
      · rw [if_pos hq, ih]; simp [hp]; omega
      · rw [if_neg hq, ih]; simp [hp]; omega
    · rw [if_neg hp, ih]; simp [hp]

theorem shadowCounts_le (st : RState) (pos : Vec3) :
    (shadowCountsOf st pos).1 ≤ (shadowCountsOf st pos).2 := by
  show ((pcfOffsets.foldl _ ((0 : ℕ), (0 : ℕ)))).1 ≤ _
  exact pairFold_le
    (fun off => 0 ≤ (shadowMapXY st pos).1 + off.2 ∧
      (shadowMapXY st pos).1 + off.2 < SHADOW_MAP_SIZE ∧
      0 ≤ (shadowMapXY st pos).2 + off.1 ∧
      (shadowMapXY st pos).2 + off.1 < SHADOW_MAP_SIZE)
    (fun off => (shadowUV st pos).2.2 - 1 / 100 >
      st.shadowMap (((shadowMapXY st pos).2 + off.1) * SHADOW_MAP_SIZE +
        ((shadowMapXY st pos).1 + off.2)).toNat)
    pcfOffsets 0 0 (le_refl 0)

theorem shadowCounts_snd (st : RState) (pos : Vec3) :
    (shadowCountsOf st pos).2 =
      pcfOffsets.countP (fun off =>
        decide (0 ≤ (shadowMapXY st pos).1 + off.2 ∧
          (shadowMapXY st pos).1 + off.2 < SHADOW_MAP_SIZE ∧
          0 ≤ (shadowMapXY st pos).2 + off.1 ∧
          (shadowMapXY st pos).2 + off.1 < SHADOW_MAP_SIZE)) := by
  show ((pcfOffsets.foldl _ ((0 : ℕ), (0 : ℕ)))).2 = _
  simpa using pairFold_snd
    (fun off => 0 ≤ (shadowMapXY st pos).1 + off.2 ∧
      (shadowMapXY st pos).1 + off.2 < SHADOW_MAP_SIZE ∧
      0 ≤ (shadowMapXY st pos).2 + off.1 ∧
      (shadowMapXY st pos).2 + off.1 < SHADOW_MAP_SIZE)
    (fun off => (shadowUV st pos).2.2 - 1 / 100 >
      st.shadowMap (((shadowMapXY st pos).2 + off.1) * SHADOW_MAP_SIZE +
        ((shadowMapXY st pos).1 + off.2)).toNat)
    pcfOffsets 0 0

theorem truncZ_bounds (q hi : ℚ) (h0 : 0 ≤ q) (hhi : q ≤ hi) :
    0 ≤ truncZ q ∧ (truncZ q : ℚ) ≤ hi := by
  unfold truncZ
  rw [if_neg (not_lt.mpr h0)]
  refine ⟨Int.floor_nonneg.mpr h0, ?_⟩
  exact le_trans (Int.floor_le q) hhi

theorem shadow_uv_bounds_of_not_early (st : RState) (pos : Vec3)
    (hE : shadowEarlyOut st pos = false) :
    0 ≤ (shadowUV st pos).1 ∧ (shadowUV st pos).1 ≤ 1 ∧
    0 ≤ (shadowUV st pos).2.1 ∧ (shadowUV st pos).2.1 ≤ 1 := by
  unfold shadowEarlyOut at hE
  by_cases h1 : st.shadowsEnabled = false
  · rw [if_pos h1] at hE; exact absurd hE (by simp)
  · rw [if_neg h1] at hE
    by_cases h2 : |(shadowClipPos st pos).w| < 1 / 10000
    · rw [if_pos h2] at hE; exact absurd hE (by simp)
    · rw [if_neg h2] at hE
      by_cases h3 : (shadowUV st pos).1 < 0 ∨ (shadowUV st pos).1 > 1 ∨
          (shadowUV st pos).2.1 < 0 ∨ (shadowUV st pos).2.1 > 1 ∨
          (shadowUV st pos).2.2 > 1
      · rw [if_pos h3] at hE; exact absurd hE (by simp)
      · push_neg at h3
        exact ⟨h3.1, h3.2.1, h3.2.2.1, h3.2.2.2.1⟩

theorem shadow_total_pos_of_not_early (st : RState) (pos : Vec3)
    (hE : shadowEarlyOut st pos = false) :
    0 < (shadowCountsOf st pos).2 := by
  obtain ⟨hx0, hx1, hy0, hy1⟩ := shadow_uv_bounds_of_not_early st pos hE
  have hxB := truncZ_bounds ((shadowUV st pos).1 * ((SHADOW_MAP_SIZE : ℚ) - 1))
    ((SHADOW_MAP_SIZE : ℚ) - 1)
    (mul_nonneg hx0 (by norm_num [SHADOW_MAP_SIZE]))
    (by
      calc (shadowUV st pos).1 * ((SHADOW_MAP_SIZE : ℚ) - 1)
          ≤ 1 * ((SHADOW_MAP_SIZE : ℚ) - 1) := by
            apply mul_le_mul_of_nonneg_right hx1
            norm_num [SHADOW_MAP_SIZE]
        _ = (SHADOW_MAP_SIZE : ℚ) - 1 := one_mul _)
  have hyB := truncZ_bounds ((shadowUV st pos).2.1 * ((SHADOW_MAP_SIZE : ℚ) - 1))
    ((SHADOW_MAP_SIZE : ℚ) - 1)
    (mul_nonneg hy0 (by norm_num [SHADOW_MAP_SIZE]))
    (by
      calc (shadowUV st pos).2.1 * ((SHADOW_MAP_SIZE : ℚ) - 1)
          ≤ 1 * ((SHADOW_MAP_SIZE : ℚ) - 1) := by
            apply mul_le_mul_of_nonneg_right hy1
            norm_num [SHADOW_MAP_SIZE]
        _ = (SHADOW_MAP_SIZE : ℚ) - 1 := one_mul _)
  have hxlt : (shadowMapXY st pos).1 < SHADOW_MAP_SIZE := by
    have := hxB.2
    have hcast : ((truncZ ((shadowUV st pos).1 * ((SHADOW_MAP_SIZE : ℚ) - 1)) : ℤ) : ℚ) ≤
        (SHADOW_MAP_SIZE : ℚ) - 1 := this
    have : (truncZ ((shadowUV st pos).1 * ((SHADOW_MAP_SIZE : ℚ) - 1)) : ℤ) ≤
        SHADOW_MAP_SIZE - 1 := by exact_mod_cast hcast
    simpa [shadowMapXY] using lt_of_le_of_lt this (by norm_num [SHADOW_MAP_SIZE])
  have hylt : (shadowMapXY st pos).2 < SHADOW_MAP_SIZE := by
    have := hyB.2
    have hcast : ((truncZ ((shadowUV st pos).2.1 * ((SHADOW_MAP_SIZE : ℚ) - 1)) : ℤ) : ℚ) ≤
        (SHADOW_MAP_SIZE : ℚ) - 1 := this
    have : (truncZ ((shadowUV st pos).2.1 * ((SHADOW_MAP_SIZE : ℚ) - 1)) : ℤ) ≤
        SHADOW_MAP_SIZE - 1 := by exact_mod_cast hcast
    simpa [shadowMapXY] using lt_of_le_of_lt this (by norm_num [SHADOW_MAP_SIZE])
  have hx0m : 0 ≤ (shadowMapXY st pos).1 := by simpa [shadowMapXY] using hxB.1
  have hy0m : 0 ≤ (shadowMapXY st pos).2 := by simpa [shadowMapXY] using hyB.1
  rw [shadowCounts_snd]
  rw [List.countP_pos_iff]
  refine ⟨(0, 0), by with_unfolding_all decide, ?_⟩
  simp only [decide_eq_true_eq]
  constructor
  · simpa using hx0m
  constructor
  · simpa using hxlt
  constructor
  · simpa using hy0m
  · simpa using hylt

theorem ratio_bounds {c t : ℕ} (hct : c ≤ t) :
    0 ≤ (c : ℚ) / (t : ℚ) ∧ (c : ℚ) / (t : ℚ) ≤ 1 := by
  constructor
  · positivity
  · rcases Nat.eq_zero_or_pos t with ht | ht
    · subst ht
      interval_cases c
      simp
    · rw [div_le_one (by exact_mod_cast ht)]
      exact_mod_cast hct

/-- C4: for every rasterizer state and world position, getShadowFactor
lies in the closed interval 0.15 to 1; it is exactly 1 on every early
return (shadows disabled, near-zero light-clip w, position outside the
light's region, index out of range) and whenever no PCF sample is counted
occluded; it is exactly 0.15 when the lookup reaches the PCF stage and
every in-bounds sample of the 7 by 7 neighbourhood is occluded (the
sample count is then positive); and whenever at least one sample is
occluded while the raw factor exceeds 0.5, the result is clamped to
exactly 0.5. -/
theorem shadow_factor_bounds_and_rules (st : RState) (pos : Vec3) :
    (15 / 100 ≤ getShadowFactor st pos ∧ getShadowFactor st pos ≤ 1) ∧
    (shadowEarlyOut st pos = true → getShadowFactor st pos = 1) ∧
    (|(shadowClipPos st pos).w| < 1 / 10000 → getShadowFactor st pos = 1) ∧
    ((shadowCountsOf st pos).1 = 0 → getShadowFactor st pos = 1) ∧
    (shadowEarlyOut st pos = false →
      (shadowCountsOf st pos).1 = (shadowCountsOf st pos).2 →
      getShadowFactor st pos = 15 / 100) ∧
    (shadowEarlyOut st pos = false → 0 < (shadowCountsOf st pos).1 →
      1 - ((shadowCountsOf st pos).1 : ℚ) / ((shadowCountsOf st pos).2 : ℚ) *
        (85 / 100) > 1 / 2 →
      getShadowFactor st pos = 1 / 2) := by
  have hct := shadowCounts_le st pos
  obtain ⟨hr0, hr1⟩ := ratio_bounds (c := (shadowCountsOf st pos).1)
    (t := (shadowCountsOf st pos).2) hct
  by_cases hE : shadowEarlyOut st pos = true
  · have hgs : getShadowFactor st pos = 1 := by
      unfold getShadowFactor
      rw [if_pos hE]
    refine ⟨by rw [hgs]; norm_num, fun _ => hgs, fun _ => hgs, fun _ => hgs,
      ?_, ?_⟩
    · intro hfalse; rw [hE] at hfalse; exact absurd hfalse (by simp)
    · intro hfalse; rw [hE] at hfalse; exact absurd hfalse (by simp)
  · have hEf : shadowEarlyOut st pos = false := by
      cases h : shadowEarlyOut st pos
      · rfl
      · exact absurd h hE
    have htpos : 0 < (shadowCountsOf st pos).2 :=
      shadow_total_pos_of_not_early st pos hEf
    have hgs : getShadowFactor st pos =
        (if 0 < (shadowCountsOf st pos).1 ∧
            1 - ((shadowCountsOf st pos).1 : ℚ) / ((shadowCountsOf st pos).2 : ℚ) *
              (85 / 100) > 1 / 2 then (1 : ℚ) / 2
          else 1 - ((shadowCountsOf st pos).1 : ℚ) / ((shadowCountsOf st pos).2 : ℚ) *
            (85 / 100)) := by
      simp only [getShadowFactor]
      rw [if_neg hE, if_pos htpos]
    have hfac0 : 15 / 100 ≤
        1 - ((shadowCountsOf st pos).1 : ℚ) / ((shadowCountsOf st pos).2 : ℚ) *
          (85 / 100) := by linarith
    have hfac1 :
        1 - ((shadowCountsOf st pos).1 : ℚ) / ((shadowCountsOf st pos).2 : ℚ) *
          (85 / 100) ≤ 1 := by linarith
    refine ⟨?_, ?_, ?_, ?_, ?_, ?_⟩
    · rw [hgs]
      split_ifs
      · constructor <;> norm_num
      · exact ⟨hfac0, hfac1⟩
    · intro h; exact absurd h (by rw [hEf]; simp)
    · intro hw
      exfalso
      unfold shadowEarlyOut at hEf
      by_cases h1 : st.shadowsEnabled = false
      · rw [if_pos h1] at hEf; exact absurd hEf (by simp)
      · rw [if_neg h1, if_pos hw] at hEf
        exact absurd hEf (by simp)
    · intro hc0
      rw [hgs, hc0]
      rw [if_neg (by simp)]
      simp
    · intro _ hcall
      rw [hgs, hcall]
      have hdiv : ((shadowCountsOf st pos).2 : ℚ) / ((shadowCountsOf st pos).2 : ℚ) = 1 :=
        div_self (Nat.cast_ne_zero.mpr htpos.ne')
      rw [hdiv]
      rw [if_neg (by norm_num)]
      norm_num
    · intro _ hcpos hfac
      rw [hgs, if_pos ⟨hcpos, hfac⟩]

/-- Witness for C4: with shadows disabled the factor is 1; on a fresh
rasterizer (shadow map all 1.0) no sample is occluded and the factor is
1; with the map all -1 every one of the 49 samples is occluded and the
factor is exactly 0.15; with exactly one occluded sample the raw factor
1 - (1/49) * 0.85 exceeds 0.5 and is clamped to exactly 0.5. -/
theorem shadow_factor_bounds_and_rules_witness :
    getShadowFactor { mkRasterizer 2 2 with shadowsEnabled := false } ⟨0, 0, 0⟩ = 1 ∧
    getShadowFactor (mkRasterizer 2 2) ⟨0, 0, 0⟩ = 1 ∧
    getShadowFactor stAllOcc ⟨0, 0, 0⟩ = 15 / 100 ∧
    getShadowFactor stOneOcc ⟨0, 0, 0⟩ = 1 / 2 :=
  ⟨(shadow_factor_bounds_and_rules
      { mkRasterizer 2 2 with shadowsEnabled := false } ⟨0, 0, 0⟩).2.1
     (by with_unfolding_all decide),
   (shadow_factor_bounds_and_rules (mkRasterizer 2 2) ⟨0, 0, 0⟩).2.2.2.1
     (by with_unfolding_all decide),
   (shadow_factor_bounds_and_rules stAllOcc ⟨0, 0, 0⟩).2.2.2.2.1
     (by with_unfolding_all decide) (by with_unfolding_all decide),
   (shadow_factor_bounds_and_rules stOneOcc ⟨0, 0, 0⟩).2.2.2.2.2
     (by with_unfolding_all decide) (by with_unfolding_all decide)
     (by with_unfolding_all decide)⟩

/-- Witness for C3: a concrete covered pixel (the centre of the single
pixel of a 1 by 1 rasterizer against the screen triangle (0,0), (2,0),
(0,2)) passes the depth test against the cleared depth 1, and the pixel
write stores the fragment colour and the tested depth at index 0. -/
theorem depth_test_governs_pixel_writes_witness :
    pixelCovered ⟨0, 0, 0, 1⟩ ⟨2, 0, 0, 1⟩ ⟨0, 2, 0, 1⟩ 0 0 = true ∧
    (processPixel (fun _ => 1) (flatFragmentShader ⟨255, 255, 255, 255⟩)
        defaultVWA defaultVWA defaultVWA ⟨0, 0, 0, 1⟩ ⟨2, 0, 0, 1⟩ ⟨0, 2, 0, 1⟩
        1 0 0 (mkRasterizer 1 1)).colorBuffer.get? 0 =
      some ((flatFragmentShader ⟨255, 255, 255, 255⟩
        (fragInputAt (fun _ => 1) (mkRasterizer 1 1) defaultVWA defaultVWA
          defaultVWA ⟨0, 0, 0, 1⟩ ⟨2, 0, 0, 1⟩ ⟨0, 2, 0, 1⟩ 0 0)).toUint32) ∧
    (processPixel (fun _ => 1) (flatFragmentShader ⟨255, 255, 255, 255⟩)
        defaultVWA defaultVWA defaultVWA ⟨0, 0, 0, 1⟩ ⟨2, 0, 0, 1⟩ ⟨0, 2, 0, 1⟩
        1 0 0 (mkRasterizer 1 1)).depthBuffer.get? 0 =
      some (zTestAt defaultVWA defaultVWA defaultVWA ⟨0, 0, 0, 1⟩ ⟨2, 0, 0, 1⟩
        ⟨0, 2, 0, 1⟩ 1 0 0) :=
  ⟨by with_unfolding_all decide,
   ((depth_test_governs_pixel_writes (fun _ => 1)
       (flatFragmentShader ⟨255, 255, 255, 255⟩) defaultVWA defaultVWA defaultVWA
       ⟨0, 0, 0, 1⟩ ⟨2, 0, 0, 1⟩ ⟨0, 2, 0, 1⟩ 1 0 0 (mkRasterizer 1 1)
       (by with_unfolding_all decide) (by with_unfolding_all decide)).1
     ⟨by with_unfolding_all decide, by with_unfolding_all decide⟩).1,
   ((depth_test_governs_pixel_writes (fun _ => 1)
       (flatFragmentShader ⟨255, 255, 255, 255⟩) defaultVWA defaultVWA defaultVWA
       ⟨0, 0, 0, 1⟩ ⟨2, 0, 0, 1⟩ ⟨0, 2, 0, 1⟩ 1 0 0 (mkRasterizer 1 1)
       (by with_unfolding_all decide) (by with_unfolding_all decide)).1
     ⟨by with_unfolding_all decide, by with_unfolding_all decide⟩).2.1⟩

set_option maxRecDepth 100000

set_option maxHeartbeats 4000000

/-- C9 counterexample: in scenario S1 the pixel (1, 3) (buffer index 13)
is covered by the triangle according to the renderer's own coverage test
of the screen triangle (0,4), (4,4), (2,0), and after rendering it holds
the packed red colour, but its depth entry is 0 (the triangle's
interpolated NDC depth, with a zero bias), not 0.5 as the claim states. -/
theorem s1_covered_pixel_depth_not_half :
    pixelCovered ⟨0, 4, 1 / 2, 1⟩ ⟨4, 4, 1 / 2, 1⟩ ⟨2, 0, 1 / 2, 1⟩ 1 3 = true ∧
    renderS1.colorBuffer.getD 13 0 = s1RedPacked ∧
    renderS1.depthBuffer.getD 13 1 = 0 ∧
    (0 : ℚ) ≠ 1 / 2 := by
  refine ⟨?_, ?_, ?_, ?_⟩ <;> with_unfolding_all decide

/-- C9 amended: in scenario S1 every pixel covered by the triangle (the
eight pixels at indices 5, 6, 9, 10, 12, 13, 14, 15 of the 4 by 4 grid)
holds the packed red colour and depth 0.0 (the interpolated NDC depth of
the z = 0 triangle, minus a zero bias), and every pixel outside the
coverage keeps the packed clear colour and the cleared depth 1.0. -/
theorem s1_render_buffers :
    renderS1.colorBuffer =
      [s1ClearPacked, s1ClearPacked, s1ClearPacked, s1ClearPacked,
       s1ClearPacked, s1RedPacked, s1RedPacked, s1ClearPacked,
       s1ClearPacked, s1RedPacked, s1RedPacked, s1ClearPacked,
       s1RedPacked, s1RedPacked, s1RedPacked, s1RedPacked] ∧
    renderS1.depthBuffer = [1, 1, 1, 1, 1, 0, 0, 1, 1, 0, 0, 1, 0, 0, 0, 0] := by
  refine ⟨?_, ?_⟩ <;> with_unfolding_all decide

end Rast
